import Mathlib

/-!
Shallow embedding of the combat simulation of
"Valorium — Ascensions of Heroes": src/src/lib/game/GameEngine.ts and the
current Entities.ts it imports, whose text is embedded in
src/src/components/game/GameScene.tsx lines 238-456 (src/unnamed/part_001
is an earlier revision of the same module), together with theorems
settling the frozen claims about it.

Numbers are modelled by ℚ (the source uses JS doubles but only performs
field arithmetic of small magnitude here; overflow/rounding are not in
play for the claims).  Wall-clock reads (`Date.now()`), the random clash
roll (`Math.random()`), and the `setTimeout` attack-flag reset are
modelled by an explicit environment record, since the source consumes
them inside `update`.
-/

set_option linter.unusedVariables false
set_option maxHeartbeats 2000000

namespace Valorium

/-- Source: Entities.ts (GameScene.tsx line 238): `type Lane`. -/
inductive Lane where
  | FOREGROUND
  | BACKGROUND
  deriving DecidableEq, Repr

/-- Source: Entities.ts (GameScene.tsx line 239): `type EntityType`. -/
inductive EntityType where
  | SAMURAI
  | NINJA
  | MONK
  | TITAN
  deriving DecidableEq, Repr

/-- Keyboard codes consumed by `GameEngine.update` (the two
`handlePlayer` call sites, GameEngine.ts lines 611-613). -/
inductive Key where
  | KeyA
  | KeyD
  | KeyW
  | KeyS
  | Space
  | KeyQ
  | KeyE
  | ArrowLeft
  | ArrowRight
  | ArrowUp
  | ArrowDown
  | Enter
  | ShiftRight
  deriving DecidableEq, Repr

/-- The held-input set (`inputs: Set<string>`): membership function. -/
def Inputs : Type := Key → Bool

/-- The empty held-input set. -/
def noInputs : Inputs := fun _ => false

/-- Values assigned to `state.lastHitType` in GameEngine.ts. -/
inductive HitType where
  | BLADE
  | HANDLE
  | SPECIAL
  | TITAN_DEATH
  deriving DecidableEq, Repr

/-- Values assigned to `state.lastAttackerId` in GameEngine.ts. -/
inductive AttackerId where
  | P1
  | P2
  | TITAN
  | TITAN_BEAM
  deriving DecidableEq, Repr

/-- The per-swing hit set `p.hitTargets` of a player: the possible
members are the opposing player, the opposing titan and the opposing
orb (GameEngine.ts lines 307-308, 438). -/
structure HitSet where
  enemyPlayer : Bool
  enemyTitan : Bool
  enemyOrb : Bool
  deriving DecidableEq, Repr

/-- The empty hit set (`p.hitTargets.clear()`). -/
def HitSet.empty : HitSet := ⟨false, false, false⟩

/-- Player record.  Source: the current Entities.ts (GameScene.tsx
lines 241-391, classes Entity/Fighter/Player), which declares the
respawn machine, special meter, crouch flag and hit set.  The
`wasInSameLane`, `defenseActivationCooldown` and `laneSwitchCooldown`
fields are the ad hoc dynamic fields GameEngine.ts attaches via
`(p as any)`; `lastFrameAtkPressed` is declared on Fighter (line 285). -/
structure Player where
  x : ℚ
  y : ℚ
  width : ℚ
  height : ℚ
  vx : ℚ
  vy : ℚ
  isDead : Bool
  facingRight : Bool
  health : ℚ
  maxHealth : ℚ
  attackCooldown : ℚ
  isAttacking : Bool
  isBlocking : Bool
  lane : Lane
  hitStun : ℕ
  classType : EntityType
  id : ℕ
  isCrouching : Bool
  hitTargets : HitSet
  specialMeter : ℚ
  isUsingSpecial : Bool
  specialFrame : ℕ
  isRespawning : Bool
  isResurrecting : Bool
  respawnTimer : ℚ
  deathAnimFrame : ℕ
  resurrectionAnimFrame : ℕ
  wasInSameLane : Bool
  defenseActivationCooldown : ℕ
  laneSwitchCooldown : ℕ
  lastFrameAtkPressed : Bool
  deriving DecidableEq, Repr

/-- Titan record.  Source: the current Entities.ts (GameScene.tsx
lines 241-329, classes Entity/Fighter/Titan), including
`proximityCharge` and `lastDamageTime` (lines 314-315). -/
structure Titan where
  x : ℚ
  y : ℚ
  width : ℚ
  height : ℚ
  vx : ℚ
  vy : ℚ
  isDead : Bool
  facingRight : Bool
  health : ℚ
  maxHealth : ℚ
  attackCooldown : ℚ
  isAttacking : Bool
  isBlocking : Bool
  lane : Lane
  hitStun : ℕ
  classType : EntityType
  proximityCharge : ℚ
  lastDamageTime : ℚ
  deriving DecidableEq, Repr

/-- Orb record.  Source: the current Entities.ts (GameScene.tsx lines
393-408, class Orb).  The class constant `defenseBonus = 0.75` is never
reassigned and is embedded as the literal 0.75 in `Orb.takeDamage`;
`owner` is `ownerId` here. -/
structure Orb where
  x : ℚ
  y : ℚ
  width : ℚ
  height : ℚ
  health : ℚ
  maxHealth : ℚ
  armor : ℚ
  maxArmor : ℚ
  isDead : Bool
  isShielded : Bool
  hasDefenseBonus : Bool
  lastHitTime : ℚ
  ownerId : ℕ
  deriving DecidableEq, Repr

/-- Source: GameEngine.ts `interface GameState` (lines 3-19) plus the ad
hoc per-side combo fields GameEngine.ts attaches via
`(this.state as any)` (`p1OrbCombo`, `p1OrbComboCooldown`,
`p1TitanCombo`, `p1TitanComboCooldown` and the `p2` counterparts).
`winner = none` models `winner: null`; a combo cooldown of `none` models
the field being absent (undefined). -/
structure GameState where
  player1 : Player
  player2 : Player
  titan1 : Titan
  titan2 : Titan
  orb1 : Orb
  orb2 : Orb
  winner : Option ℕ
  hitStop : ℕ
  titanCharging : ℕ
  titanChargeTimer : ℚ
  lastHitPos : Option (ℚ × ℚ)
  lastHitType : Option HitType
  lastAttackerId : Option AttackerId
  titan1DeadHandled : Bool
  titan2DeadHandled : Bool
  p1OrbCombo : ℕ
  p2OrbCombo : ℕ
  p1TitanCombo : ℕ
  p2TitanCombo : ℕ
  p1OrbComboCooldown : Option ℚ
  p2OrbComboCooldown : Option ℚ
  p1TitanComboCooldown : Option ℚ
  p2TitanComboCooldown : Option ℚ
  deriving DecidableEq, Repr

/-- The environment a single `update` call consumes besides its
arguments: `now` models `Date.now()` (milliseconds) and `clashRoll`
models the `Math.random()` draw of the titan-clash check.  The two
timeout flags model whether the 200 ms `setTimeout` scheduled at an
attack start (GameEngine.ts line 287) fires before the next tick; they
are consumed between ticks by `fireAttackTimeouts`, never by `update`
itself. -/
structure Env where
  now : ℚ
  clashRoll : ℚ
  p1AtkTimeout : Bool
  p2AtkTimeout : Bool
  deriving DecidableEq, Repr

/-- Source: GameEngine.ts `WEAPON_STATS` value record (lines 34-39). -/
structure WeaponStats where
  range : ℚ
  minRange : ℚ
  damage : ℚ
  cooldown : ℚ
  startup : ℚ
  deriving DecidableEq, Repr

/-- Source: GameEngine.ts `static WEAPON_STATS` (lines 34-39). -/
def WEAPON_STATS : EntityType → WeaponStats
  | .SAMURAI => { range := 45, minRange := 20, damage := 8, cooldown := 0.35, startup := 0.1 }
  | .NINJA => { range := 48, minRange := 25, damage := 12, cooldown := 0.6, startup := 0.2 }
  | .MONK => { range := 45, minRange := 20, damage := 18, cooldown := 0.9, startup := 0.3 }
  | .TITAN => { range := 80, minRange := 10, damage := 50, cooldown := 1.5, startup := 0.5 }

/-- Source: GameEngine.ts `GRAVITY` (line 29). -/
def GRAVITY : ℚ := 800

/-- Source: GameEngine.ts `JUMP_FORCE` (line 30). -/
def JUMP_FORCE : ℚ := -250

/-- Source: GameEngine.ts arena width (line 25). -/
def ARENA_WIDTH : ℚ := 320

/-- Source: GameEngine.ts `speed` (line 96). -/
def PLAYER_SPEED : ℚ := 60

/-- Source: GameEngine.ts `laneY_FG = 150 - 40` (line 99). -/
def laneY_FG : ℚ := 110

/-- Source: GameEngine.ts `laneY_BG = 100 - 30` (line 100). -/
def laneY_BG : ℚ := 70

/-- Source: GameEngine.ts `scale_BG` (line 101). -/
def scale_BG : ℚ := 0.8

/-- The ground line of a lane (GameEngine.ts lines 194, 622). -/
def groundYFor (l : Lane) : ℚ := if l = Lane.BACKGROUND then laneY_BG else laneY_FG

/-- Source: `Fighter.takeDamage` (GameScene.tsx lines 303-310,
identical in src/unnamed/part_001 lines 60-67): the resulting health
value.  Blocking reduces incoming damage by 90% (`amount * 0.1`);
health is clamped at zero. -/
def takeDamageHealth (isBlocking : Bool) (health amount : ℚ) : ℚ :=
  if isBlocking then max 0 (health - amount * 0.1) else max 0 (health - amount)

/-- Source: `Player.takeDamage`/`startRespawn` (GameScene.tsx lines
360-377): the blocking-reduced, zero-clamped health update, and — only
when health reaches 0 on a player that is neither already respawning
nor already dead — the transition into the 10-second respawn
countdown. -/
def Player.takeDamage (p : Player) (amount : ℚ) : Player :=
  let h := takeDamageHealth p.isBlocking p.health amount
  if h ≤ 0 ∧ ¬p.isRespawning ∧ ¬p.isDead then
    { p with health := h, isDead := true, isRespawning := true,
             respawnTimer := 10, deathAnimFrame := 0 }
  else
    { p with health := h }

/-- Source: `Titan.takeDamage` (GameScene.tsx lines 325-328): stamp
`lastDamageTime` with the wall clock (it drives the regen-rate tiers
read by `getDynamicRegen`), then `Fighter.takeDamage` (lines 303-310):
blocking-reduced zero-clamped health, death flag set when health
reaches 0. -/
def Titan.takeDamage (t : Titan) (now amount : ℚ) : Titan :=
  let h := takeDamageHealth t.isBlocking t.health amount
  { t with health := h,
           isDead := if h ≤ 0 then true else t.isDead,
           lastDamageTime := now }

/-- Source: `Player.respawn` (GameScene.tsx lines 379-390): health
resets to `Math.floor(0.75 * maxHealth)`, position resets beside the
owning orb with an id-dependent 25-pixel offset (`orbX + 25` for player
1, `orbX - 25` for player 2) at the ground line the engine passes in,
velocity resets to zero, and the player enters the RESURRECTING
animation window.  `orbY` is accepted and ignored exactly as in the
source; the lane is not touched. -/
def Player.respawn (p : Player) (orbX orbY groundY : ℚ) : Player :=
  { p with health := (↑⌊p.maxHealth * 0.75⌋ : ℚ),
           isDead := false, isRespawning := false, isResurrecting := true,
           resurrectionAnimFrame := 0,
           x := if p.id = 1 then orbX + 25 else orbX - 25,
           y := groundY, vx := 0, vy := 0 }

/-- Source: `Orb.activateDefenseBonus` (GameScene.tsx lines 410-415):
the bonus is set under a `!hasDefenseBonus` guard; since the guarded
assignment writes `true`, the guarded and unconditional forms produce
the same record and the embedding uses the unconditional one. -/
def Orb.activateDefenseBonus (o : Orb) : Orb :=
  { o with hasDefenseBonus := true }

/-- Source: `Orb.regenerateArmor` (GameScene.tsx lines 451-455): a
guarded no-op once armor has reached `maxArmor`; below it, armor grows
by `rate * dt`, clamped at `maxArmor`. -/
def Orb.regenerateArmor (o : Orb) (dt rate : ℚ) : Orb :=
  if o.armor < o.maxArmor then
    { o with armor := min o.maxArmor (o.armor + rate * dt) }
  else o

/-- Source: `Orb.takeDamage` (GameScene.tsx lines 417-447): (a) apply
the defense-bonus multiplier 0.75 if active; (b) if `canPierce` and the
defense bonus is active — independently of `isSpecial`, which the
pierce condition at line 427 never reads — split off 20% of the
already-reduced damage as direct health damage bypassing armor; (c) the
remainder hits armor first (only while armor is positive), and the
spill plus the piercing part is applied to health (zero-clamped) only
when positive.  Reaching zero health marks the orb dead; the last-hit
timestamp is recorded. -/
def Orb.takeDamage (o : Orb) (now amount : ℚ) (isSpecial canPierce : Bool) : Orb :=
  let reduced := if o.hasDefenseBonus then amount * 0.75 else amount
  let pierceActive := canPierce && o.hasDefenseBonus
  let directDamage := if pierceActive then reduced * 0.2 else 0
  let rest := reduced - directDamage
  let armorDmg := if o.armor > 0 then min o.armor rest else 0
  let armor1 := o.armor - armorDmg
  let rest1 := rest - armorDmg
  let total := rest1 + directDamage
  let h1 := if total > 0 then max 0 (o.health - total) else o.health
  { o with health := h1,
           armor := armor1,
           lastHitTime := now,
           isDead := if h1 ≤ 0 then true else o.isDead }

/-- Source: `Entity.update` (GameScene.tsx lines 260-263, identical in
src/unnamed/part_001 lines 23-26), as used on titans at GameEngine.ts
lines 829-830. -/
def Titan.updatePos (t : Titan) (dt : ℚ) : Titan :=
  { t with x := t.x + t.vx * dt, y := t.y + t.vy * dt }

/-- Axis-aligned rectangle, as the `{x, y, w, h}` literals of
GameEngine.ts. -/
structure Rect where
  x : ℚ
  y : ℚ
  w : ℚ
  h : ℚ
  deriving DecidableEq, Repr

/-- Source: GameEngine.ts `getIntersection` (lines 360-368): `none` on
no overlap (strict separation), otherwise the centre of the
intersection.  Touching boxes count as overlapping. -/
def getIntersection (r1 r2 : Rect) : Option (ℚ × ℚ) :=
  let x1 := max r1.x r2.x
  let y1 := max r1.y r2.y
  let x2 := min (r1.x + r1.w) (r2.x + r2.w)
  let y2 := min (r1.y + r1.h) (r2.y + r2.h)
  if x2 < x1 ∨ y2 < y1 then none
  else some ((x1 + x2) / 2, (y1 + y2) / 2)

/-- Source: GameEngine.ts `checkOverlap` (lines 452-454): strict AABB
overlap used for the orb attack (touching does not count). -/
def checkOverlap (r1 r2 : Rect) : Bool :=
  r1.x < r2.x + r2.w && r1.x + r1.w > r2.x &&
  r1.y < r2.y + r2.h && r1.y + r1.h > r2.y

/-- Source: GameEngine.ts `getHitboxSegment` (lines 320-331, identical
copy at 444-447): the AABB of a range segment in front of the attacker.
-/
def getHitboxSegment (p : Player) (startOffset len : ℚ) : Rect :=
  let centerX := p.x + p.width / 2
  let centerY := p.y
  let hitX := if p.facingRight then centerX + startOffset
              else centerX - startOffset - len
  { x := hitX, y := centerY + 10, w := len, h := p.height - 20 }

/-- The lane depth factor applied to the weapon zones
(GameEngine.ts lines 336-337). -/
def laneScale (l : Lane) : ℚ := if l = Lane.BACKGROUND then 0.8 else 1

/-- Source: GameEngine.ts line 339: start of the blade zone. -/
def bladeStartOf (p : Player) : ℚ :=
  (WEAPON_STATS p.classType).minRange * laneScale p.lane

/-- Source: GameEngine.ts lines 340-346: length of the blade zone,
extended by a 10px (scaled) phantom tip for the three player classes. -/
def bladeLengthOf (p : Player) : ℚ :=
  let stats := WEAPON_STATS p.classType
  let s := laneScale p.lane
  (stats.range - stats.minRange) * s +
    (if p.classType = EntityType.SAMURAI ∨ p.classType = EntityType.NINJA ∨
        p.classType = EntityType.MONK then 10 * s else 0)

/-- Source: GameEngine.ts lines 350-354: the handle (dead-zone) box. -/
def handleBoxOf (p : Player) : Rect :=
  let s := laneScale p.lane
  getHitboxSegment p (2 * s) (max 0 (bladeStartOf p - 2 * s))

/-- Source: GameEngine.ts line 353: the blade box. -/
def bladeBoxOf (p : Player) : Rect :=
  getHitboxSegment p (bladeStartOf p) (bladeLengthOf p)

/-- Source: GameEngine.ts lines 370-372: handle is checked first; the
blade is only tested when the handle misses.  Returns
`(handleHitCenter, bladeHitCenter)`. -/
def swingGeom (p : Player) (tb : Rect) : Option (ℚ × ℚ) × Option (ℚ × ℚ) :=
  let handleHitCenter := getIntersection (handleBoxOf p) tb
  let bladeHitCenter :=
    if handleHitCenter.isNone then getIntersection (bladeBoxOf p) tb else none
  (handleHitCenter, bladeHitCenter)

/-- Source: GameEngine.ts line 385: a hit is effective when the blade
connects, or when the handle connects and the target is a titan. -/
def effectiveHit (p : Player) (tb : Rect) (tClass : EntityType) : Bool :=
  let g := swingGeom p tb
  g.2.isSome || (g.1.isSome && decide (tClass = EntityType.TITAN))

/-- Embedding of `Math.sqrt(dx*dx + dy*dy) < r` over ℚ (GameEngine.ts
lines 558-560, 573-575): for positive `r` this is `dx² + dy² < r²`, and
for `r ≤ 0` it is false since the square root is nonnegative. -/
def distLt (dx dy r : ℚ) : Bool :=
  if 0 < r then decide (dx * dx + dy * dy < r * r) else false

/-- The slice of the world state a single `handlePlayer` invocation
reads and writes: the acting player `p`, the opposing player, titan and
orb, the global VFX/hit-stop fields, and the acting and opposing sides'
combo trackers.  (The defender's protection orb at GameEngine.ts line
477 is the same object as `targetOrb`.) -/
structure PView where
  p : Player
  enemy : Player
  enemyTitan : Titan
  targetOrb : Orb
  hitStop : ℕ
  lastHitPos : Option (ℚ × ℚ)
  lastHitType : Option HitType
  lastAttackerId : Option AttackerId
  myOrbCombo : ℕ
  myOrbComboCooldown : Option ℚ
  myTitanCombo : ℕ
  myTitanComboCooldown : Option ℚ
  enemyOrbCombo : ℕ
  enemyOrbComboCooldown : Option ℚ
  enemyTitanCombo : ℕ
  enemyTitanComboCooldown : Option ℚ
  deriving DecidableEq, Repr

/-- Extract the acting side's view from the world state. -/
def mkView (isP1 : Bool) (gs : GameState) : PView :=
  if isP1 then
    { p := gs.player1, enemy := gs.player2, enemyTitan := gs.titan2,
      targetOrb := gs.orb2,
      hitStop := gs.hitStop, lastHitPos := gs.lastHitPos,
      lastHitType := gs.lastHitType, lastAttackerId := gs.lastAttackerId,
      myOrbCombo := gs.p1OrbCombo, myOrbComboCooldown := gs.p1OrbComboCooldown,
      myTitanCombo := gs.p1TitanCombo, myTitanComboCooldown := gs.p1TitanComboCooldown,
      enemyOrbCombo := gs.p2OrbCombo, enemyOrbComboCooldown := gs.p2OrbComboCooldown,
      enemyTitanCombo := gs.p2TitanCombo, enemyTitanComboCooldown := gs.p2TitanComboCooldown }
  else
    { p := gs.player2, enemy := gs.player1, enemyTitan := gs.titan1,
      targetOrb := gs.orb1,
      hitStop := gs.hitStop, lastHitPos := gs.lastHitPos,
      lastHitType := gs.lastHitType, lastAttackerId := gs.lastAttackerId,
      myOrbCombo := gs.p2OrbCombo, myOrbComboCooldown := gs.p2OrbComboCooldown,
      myTitanCombo := gs.p2TitanCombo, myTitanComboCooldown := gs.p2TitanComboCooldown,
      enemyOrbCombo := gs.p1OrbCombo, enemyOrbComboCooldown := gs.p1OrbComboCooldown,
      enemyTitanCombo := gs.p1TitanCombo, enemyTitanComboCooldown := gs.p1TitanComboCooldown }

/-- Write the acting side's view back into the world state. -/
def writeBack (isP1 : Bool) (v : PView) (gs : GameState) : GameState :=
  if isP1 then
    { gs with player1 := v.p, player2 := v.enemy, titan2 := v.enemyTitan,
              orb2 := v.targetOrb,
              hitStop := v.hitStop, lastHitPos := v.lastHitPos,
              lastHitType := v.lastHitType, lastAttackerId := v.lastAttackerId,
              p1OrbCombo := v.myOrbCombo, p1OrbComboCooldown := v.myOrbComboCooldown,
              p1TitanCombo := v.myTitanCombo, p1TitanComboCooldown := v.myTitanComboCooldown,
              p2OrbCombo := v.enemyOrbCombo, p2OrbComboCooldown := v.enemyOrbComboCooldown,
              p2TitanCombo := v.enemyTitanCombo, p2TitanComboCooldown := v.enemyTitanComboCooldown }
  else
    { gs with player2 := v.p, player1 := v.enemy, titan1 := v.enemyTitan,
              orb1 := v.targetOrb,
              hitStop := v.hitStop, lastHitPos := v.lastHitPos,
              lastHitType := v.lastHitType, lastAttackerId := v.lastAttackerId,
              p2OrbCombo := v.myOrbCombo, p2OrbComboCooldown := v.myOrbComboCooldown,
              p2TitanCombo := v.myTitanCombo, p2TitanComboCooldown := v.myTitanComboCooldown,
              p1OrbCombo := v.enemyOrbCombo, p1OrbComboCooldown := v.enemyOrbComboCooldown,
              p1TitanCombo := v.enemyTitanCombo, p1TitanComboCooldown := v.enemyTitanComboCooldown }

/-- Source: GameEngine.ts `handlePlayer` lines 170-263: block reset,
lane-sync bookkeeping and defense-activation cooldown, attack-cooldown
decrement, horizontal movement and block stance, crouch, jump, gravity
integration with ground snap, and debounced lane switching.  Note that
the crouch guard `if (!p.isCrouching)` reads the *previous* tick's
crouch flag (it is reassigned only afterwards at line 221), and that a
held direction with the flag set leaves `p.vx` at its previous value,
which is still integrated by `p.x += p.vx * dt` (line 218). -/
def movePhase (dt : ℚ) (leftHeld rightHeld downHeld jumpHeld switchHeld : Bool)
    (v : PView) : PView :=
  let p := v.p
  let enemy := v.enemy
  -- p.isBlocking = false (line 170)
  -- lane-sync tracking (lines 172-185)
  let isInSameLane := decide (p.lane = enemy.lane)
  let cd0 := if isInSameLane && !p.wasInSameLane then 30 else p.defenseActivationCooldown
  let cd1 := if cd0 > 0 then cd0 - 1 else cd0
  let canBlock := isInSameLane && decide (cd1 = 0)
  -- cooldown management (line 191)
  let atkCd := if p.attackCooldown > 0 then p.attackCooldown - dt else p.attackCooldown
  let currentGroundY := groundYFor p.lane
  let isGrounded := decide (p.y ≥ currentGroundY)
  -- movement X and block stance (lines 198-215)
  let vx1 := if leftHeld then (if !p.isCrouching then -PLAYER_SPEED else p.vx)
             else if rightHeld then (if !p.isCrouching then PLAYER_SPEED else p.vx)
             else 0
  let facing1 := if leftHeld then false else if rightHeld then true else p.facingRight
  let blocking1 :=
    if leftHeld then canBlock && decide (enemy.x > p.x)
    else if rightHeld then canBlock && decide (enemy.x < p.x)
    else false
  let x1 := p.x + vx1 * dt
  -- crouch (lines 221-228)
  let crouch1 := downHeld && isGrounded
  -- jump (line 231)
  let vyJ := if jumpHeld && isGrounded && !crouch1 then JUMP_FORCE else p.vy
  -- gravity / ground snap (lines 236-242)
  let vy1 := if !isGrounded || vyJ < 0 then vyJ + GRAVITY * dt else 0
  let y1 := if !isGrounded || vyJ < 0 then p.y + vy1 * dt else currentGroundY
  -- lane switching (lines 249-263)
  let doSwitch := switchHeld && decide (p.laneSwitchCooldown = 0)
  let lane2 := if doSwitch then
                 (if p.lane = Lane.FOREGROUND then Lane.BACKGROUND else Lane.FOREGROUND)
               else p.lane
  let y2 := if doSwitch then
              (if p.lane = Lane.FOREGROUND then laneY_BG else laneY_FG)
            else y1
  let w2 := if doSwitch then
              (if p.lane = Lane.FOREGROUND then 20 * scale_BG else 20)
            else p.width
  let h2 := if doSwitch then
              (if p.lane = Lane.FOREGROUND then 40 * scale_BG else 40)
            else p.height
  let lsc0 := if doSwitch then 20 else p.laneSwitchCooldown
  let lsc1 := if lsc0 > 0 then lsc0 - 1 else lsc0
  { v with p := { p with
      isBlocking := blocking1,
      wasInSameLane := isInSameLane,
      defenseActivationCooldown := cd1,
      attackCooldown := atkCd,
      vx := vx1, facingRight := facing1, x := x1,
      isCrouching := crouch1,
      vy := vy1, y := y2,
      lane := lane2, width := w2, height := h2,
      laneSwitchCooldown := lsc1 } }

/-- Source: GameEngine.ts lines 281-284: a new swing marks the player
attacking, clears the per-swing hit set, and starts the class cooldown.
(The 200 ms `setTimeout` that later clears `isAttacking` is modelled by
`fireAttackTimeouts`, outside `update`.) -/
def startSwing (v : PView) : PView :=
  { v with p := { v.p with
      isAttacking := true,
      hitTargets := HitSet.empty,
      attackCooldown := (WEAPON_STATS v.p.classType).cooldown } }

/-- Source: GameEngine.ts lines 293-304: a full meter branches into the
special sequence (meter consumed, frame counter reset) and `handlePlayer`
returns early after recording the pressed-attack edge flag. -/
def startSpecial (v : PView) : PView :=
  { v with p := { v.p with
      specialMeter := 0,
      isUsingSpecial := true,
      specialFrame := 0,
      lastFrameAtkPressed := true } }

/-- Source: GameEngine.ts lines 310-433 for the opposing-player target
of the `enemies.forEach` loop: zoned hitbox test, dead-zone logic, lane
and liveness gates, damage multiplier, hit-stop/VFX bookkeeping, damage
application and special-meter gain.  The multiplier branches at lines
397-421 key on the *target's* classType, so for a TITAN-classed player
target the shared-background diffusion and the titan combo scaling
(with its wall-clock cooldown and combo-counter write) also run here;
the proximity-defense read at line 417 accesses
`(target as Titan).proximityCharge`, which is `undefined` on a player
record, so `undefined > 0` is false and that factor never applies. -/
def resolvePlayerTarget (isP1 : Bool) (now : ℚ) (v : PView) : PView :=
  if v.p.hitTargets.enemyPlayer then v
  else
    let p := v.p
    let target := v.enemy
    let tb : Rect := { x := target.x, y := target.y, w := target.width, h := target.height }
    let g := swingGeom p tb
    let isEffective := g.2.isSome || (g.1.isSome && decide (target.classType = EntityType.TITAN))
    let validLane := decide (p.lane = target.lane)
    if isEffective && validLane && !target.isDead then
      let hitPos := match g.2, g.1 with
        | some c, _ => c
        | none, some c => c
        | none, none => (target.x, target.y)
      let isTitanClass := decide (target.classType = EntityType.TITAN)
      let m1 : ℚ := if v.enemy.isDead then 3 else 1
      let m2 := if isTitanClass &&
                   decide (p.lane = Lane.BACKGROUND ∧ target.lane = Lane.BACKGROUND) then
                  m1 * 0.5 else m1
      let comboOnCooldown := match v.myTitanComboCooldown with
        | some cd => decide (now < cd)
        | none => false
      let combo1 : ℕ := if comboOnCooldown then 0 else min 10 (v.myTitanCombo + 1)
      let m3 := if isTitanClass then m2 * (1 + (combo1 : ℚ) * 0.4) else m2
      let newCombo := if isTitanClass then combo1 else v.myTitanCombo
      let finalDamage := (WEAPON_STATS p.classType).damage * m3
      { v with
        p := { p with hitTargets := { p.hitTargets with enemyPlayer := true },
                      specialMeter := min 100 (p.specialMeter + 10) },
        enemy := target.takeDamage finalDamage,
        myTitanCombo := newCombo,
        hitStop := 5,
        lastHitPos := some hitPos,
        lastHitType := some HitType.BLADE,
        lastAttackerId := some (if isP1 then AttackerId.P1 else AttackerId.P2) }
    else v

/-- Source: GameEngine.ts lines 310-433 for the opposing-titan target of
the `enemies.forEach` loop: in addition to the player-target logic, the
handle zone counts (titan exception, line 385), and the multiplier
compounds the shared-background diffusion, the titan combo (with its
wall-clock cooldown and combo-counter write) and the proximity-charge
defense — each of the three gated on `target.classType === 'TITAN'`
exactly as at lines 398, 403 and 417. -/
def resolveTitanTarget (isP1 : Bool) (now : ℚ) (v : PView) : PView :=
  if v.p.hitTargets.enemyTitan then v
  else
    let p := v.p
    let target := v.enemyTitan
    let tb : Rect := { x := target.x, y := target.y, w := target.width, h := target.height }
    let g := swingGeom p tb
    let isEffective := g.2.isSome || (g.1.isSome && decide (target.classType = EntityType.TITAN))
    let validLane := decide (p.lane = target.lane)
    if isEffective && validLane && !target.isDead then
      let hitPos := match g.2, g.1 with
        | some c, _ => c
        | none, some c => c
        | none, none => (target.x, target.y)
      let isTitanClass := decide (target.classType = EntityType.TITAN)
      let m1 : ℚ := if v.enemy.isDead then 3 else 1
      let m2 := if isTitanClass &&
                   decide (p.lane = Lane.BACKGROUND ∧ v.enemy.lane = Lane.BACKGROUND) then
                  m1 * 0.5 else m1
      let comboOnCooldown := match v.myTitanComboCooldown with
        | some cd => decide (now < cd)
        | none => false
      let combo1 : ℕ := if comboOnCooldown then 0 else min 10 (v.myTitanCombo + 1)
      let m3 := if isTitanClass then m2 * (1 + (combo1 : ℚ) * 0.4) else m2
      let newCombo := if isTitanClass then combo1 else v.myTitanCombo
      let m4 := if isTitanClass && decide (target.proximityCharge > 0) then
                  m3 * (1 - target.proximityCharge * 0.5) else m3
      let finalDamage := (WEAPON_STATS p.classType).damage * m4
      { v with
        p := { p with hitTargets := { p.hitTargets with enemyTitan := true },
                      specialMeter := min 100 (p.specialMeter + 10) },
        enemyTitan := target.takeDamage now finalDamage,
        myTitanCombo := newCombo,
        hitStop := 5,
        lastHitPos := some hitPos,
        lastHitType := some HitType.BLADE,
        lastAttackerId := some (if isP1 then AttackerId.P1 else AttackerId.P2) }
    else v

/-- Source: GameEngine.ts lines 435-511: the orb attack of the same
swing (foreground lane only, unscaled blade segment, strict overlap,
lane-sharing and orb-protection multipliers, orb combo with wall-clock
cooldown, and `canPierce` passed as the defending titan's death flag —
`Orb.takeDamage` additionally requires the defense bonus for the pierce
to apply).  The returned Boolean is `true` when the source `return` at
line 438 exits `handlePlayer` (orb already in the swing's hit set). -/
def resolveOrbTarget (isP1 : Bool) (now : ℚ) (v : PView) : PView × Bool :=
  let p := v.p
  let targetOrb := v.targetOrb
  if p.lane = Lane.FOREGROUND ∧ ¬targetOrb.isDead then
    if p.hitTargets.enemyOrb then (v, true)
    else
      let stats := WEAPON_STATS p.classType
      let bladeBox := getHitboxSegment p stats.minRange (stats.range - stats.minRange)
      let orbBox : Rect := { x := targetOrb.x, y := targetOrb.y,
                             w := targetOrb.width, h := targetOrb.height }
      if checkOverlap bladeBox orbBox then
        let x1 := max bladeBox.x orbBox.x
        let y1 := max bladeBox.y orbBox.y
        let x2 := min (bladeBox.x + bladeBox.w) (orbBox.x + orbBox.w)
        let y2 := min (bladeBox.y + bladeBox.h) (orbBox.y + orbBox.h)
        let d0 : ℚ := 0.8
        let d1 := if p.lane = Lane.FOREGROUND ∧ v.enemy.lane = Lane.FOREGROUND then
                    d0 * 0.5 else d0
        let defender := v.enemy
        let defenderDist := |(defender.x + defender.width / 2) -
                            (targetOrb.x + targetOrb.width / 2)|
        let d2 := if defenderDist < 50 ∧ defender.lane = Lane.FOREGROUND ∧
                     ¬defender.isDead then d1 * 0.25 else d1
        let comboOnCooldown := match v.myOrbComboCooldown with
          | some cd => decide (now < cd)
          | none => false
        let combo1 : ℕ := if comboOnCooldown then 0 else min 10 (v.myOrbCombo + 1)
        let comboMultiplier := 1 + (combo1 : ℚ) * 1.0
        ({ v with
           p := { p with hitTargets := { p.hitTargets with enemyOrb := true } },
           targetOrb := targetOrb.takeDamage now
             (stats.damage * 5 * d2 * comboMultiplier) false v.enemyTitan.isDead,
           myOrbCombo := combo1,
           lastHitPos := some ((x1 + x2) / 2, (y1 + y2) / 2),
           lastAttackerId := some (if isP1 then AttackerId.P1 else AttackerId.P2) }, false)
      else (v, false)
  else (v, false)

/-- Source: GameEngine.ts lines 513-527: when the attacker shares the
defender's lane, the *defender's* orb and titan combos are reset and
their 4-second reactivation cooldowns armed. -/
def comboResets (now : ℚ) (v : PView) : PView :=
  let v1 := if v.p.lane = v.enemy.lane ∧ v.enemyOrbCombo > 0 then
      { v with enemyOrbCombo := 0, enemyOrbComboCooldown := some (now + 4000) }
    else v
  if v1.p.lane = v1.enemy.lane ∧ v1.enemyTitanCombo > 0 then
    { v1 with enemyTitanCombo := 0, enemyTitanComboCooldown := some (now + 4000) }
  else v1

/-- Source: GameEngine.ts lines 533-606: the per-frame special-attack
sequence: frame counter advance, the frame-15 impact (radius check at
the weapon tip against same-lane opposing fighters, and in foreground
the opposing orb with the catch-up-breaker triple), and the frame-30
reset of the special window. -/
def specialPhase (isP1 : Bool) (now : ℚ) (v : PView) : PView :=
  if !v.p.isUsingSpecial then v
  else
    let p := v.p
    let frame1 := p.specialFrame + 1
    let v1 :=
      if frame1 = 15 then
        let dir : ℚ := if p.facingRight then 1 else -1
        let playerCenter := p.x + p.width / 2
        let tipX := playerCenter + 60 * dir
        let tipY := p.y + p.height / 2
        let hitRadius : ℚ := 30
        let enemy := v.enemy
        let hitE := decide (enemy.lane = p.lane) &&
          distLt (enemy.x + enemy.width / 2 - tipX) (enemy.y + enemy.height / 2 - tipY)
            (hitRadius + enemy.width / 2)
        let enemy1 := if hitE then enemy.takeDamage 60 else enemy
        let titan := v.enemyTitan
        let hitT := decide (titan.lane = p.lane) &&
          distLt (titan.x + titan.width / 2 - tipX) (titan.y + titan.height / 2 - tipY)
            (hitRadius + titan.width / 2)
        let titan1 := if hitT then titan.takeDamage now 60 else titan
        let orb := v.targetOrb
        let hitO := decide (p.lane = Lane.FOREGROUND) &&
          distLt (orb.x + orb.width / 2 - tipX) (orb.y + orb.height / 2 - tipY)
            (hitRadius + orb.width) && !orb.isDead
        let damage : ℚ := 48
        let damage := if orb.hasDefenseBonus && titan.isDead && !enemy.isRespawning then
            damage * 3 else damage
        let orb1 := if hitO then orb.takeDamage now damage true titan.isDead else orb
        let hitAny := hitE || hitT || hitO
        if hitAny then
          { v with enemy := enemy1, enemyTitan := titan1, targetOrb := orb1,
                   hitStop := 20,
                   lastHitPos := some (tipX, tipY),
                   lastHitType := some HitType.SPECIAL,
                   lastAttackerId := some (if isP1 then AttackerId.P1 else AttackerId.P2) }
        else
          { v with enemy := enemy1, enemyTitan := titan1, targetOrb := orb1 }
      else v
    let p1 := { v1.p with specialFrame := frame1 }
    let p2 := if frame1 ≥ 30 then { p1 with isUsingSpecial := false, specialFrame := 0 }
              else p1
    { v1 with p := p2 }

/-- Records the raw pressed state of the attack key for the next tick's
rising-edge detection (GameEngine.ts line 530). -/
def setLastAtk (v : PView) (isAtkPressed : Bool) : PView :=
  { v with p := { v.p with lastFrameAtkPressed := isAtkPressed } }

/-- Source: GameEngine.ts `handlePlayer` (lines 163-607): dead or
respawning players are skipped entirely; otherwise movement/defense,
then the edge-triggered swing (branching to the special start, which
returns early), the per-swing target resolutions and the combo resets,
then the pressed-edge bookkeeping and the per-frame special sequence. -/
def handlePlayer (dt now : ℚ) (inp : Inputs)
    (left right up down atk heal jump switchLane : Key)
    (isP1 : Bool) (gs : GameState) : GameState :=
  let p0 := if isP1 then gs.player1 else gs.player2
  if p0.isDead || p0.isRespawning then gs
  else
    let v := mkView isP1 gs
    let v1 := movePhase dt (inp left) (inp right) (inp down) (inp jump) (inp switchLane) v
    let isAtkPressed := inp atk
    if isAtkPressed && !v1.p.lastFrameAtkPressed && decide (v1.p.attackCooldown ≤ 0) &&
       !v1.p.isAttacking then
      let v2 := startSwing v1
      if v2.p.specialMeter ≥ 100 then
        writeBack isP1 (startSpecial v2) gs
      else
        let v3 := resolvePlayerTarget isP1 now v2
        let v4 := resolveTitanTarget isP1 now v3
        let r := resolveOrbTarget isP1 now v4
        if r.2 then writeBack isP1 r.1 gs
        else
          let v5 := comboResets now r.1
          let v6 := setLastAtk v5 isAtkPressed
          writeBack isP1 (specialPhase isP1 now v6) gs
    else
      let v2 := setLastAtk v1 isAtkPressed
      writeBack isP1 (specialPhase isP1 now v2) gs

/-- Source: GameEngine.ts lines 103-114: the player-1 respawn countdown,
which re-activates the owning orb's defense bonus every tick and fires
`respawn` when it elapses. -/
def respawnTickP1 (dt : ℚ) (gs : GameState) : GameState :=
  if gs.player1.isRespawning then
    let o := gs.orb1.activateDefenseBonus
    let p : Player :=
      { gs.player1 with respawnTimer := gs.player1.respawnTimer - dt,
                        deathAnimFrame := gs.player1.deathAnimFrame + 1 }
    let p := if p.respawnTimer ≤ 0 then p.respawn o.x o.y laneY_FG else p
    { gs with player1 := p, orb1 := o }
  else gs

/-- Source: GameEngine.ts lines 116-122 (player-1 resurrection window). -/
def resurrectTickP1 (gs : GameState) : GameState :=
  if gs.player1.isResurrecting then
    let f := gs.player1.resurrectionAnimFrame + 1
    let p := { gs.player1 with resurrectionAnimFrame := f, isResurrecting := decide (f < 60) }
    { gs with player1 := p }
  else gs

/-- Source: GameEngine.ts lines 124-138 (player-2 respawn countdown). -/
def respawnTickP2 (dt : ℚ) (gs : GameState) : GameState :=
  if gs.player2.isRespawning then
    let o := gs.orb2.activateDefenseBonus
    let p : Player :=
      { gs.player2 with respawnTimer := gs.player2.respawnTimer - dt,
                        deathAnimFrame := gs.player2.deathAnimFrame + 1 }
    let p := if p.respawnTimer ≤ 0 then p.respawn o.x o.y laneY_FG else p
    { gs with player2 := p, orb2 := o }
  else gs

/-- Source: GameEngine.ts lines 140-144 (player-2 resurrection window). -/
def resurrectTickP2 (gs : GameState) : GameState :=
  if gs.player2.isResurrecting then
    let f := gs.player2.resurrectionAnimFrame + 1
    let p := { gs.player2 with resurrectionAnimFrame := f, isResurrecting := decide (f < 60) }
    { gs with player2 := p }
  else gs

/-- The four stages in source order. -/
def respawnPhase (dt : ℚ) (gs : GameState) : GameState :=
  resurrectTickP2 (respawnTickP2 dt (resurrectTickP1 (respawnTickP1 dt gs)))

/-- Source: GameEngine.ts lines 616-627: clamp a player to the arena's
horizontal bounds and to the current lane's ground line. -/
def clampPlayer (p : Player) : Player :=
  let x1 := if p.x < 0 then 0 else p.x
  let x2 := if x1 > ARENA_WIDTH - p.width then ARENA_WIDTH - p.width else x1
  let gy := groundYFor p.lane
  if p.y > gy then { p with x := x2, y := gy, vy := 0 }
  else { p with x := x2 }

/-- Source: GameEngine.ts lines 616-627 applied to both players. -/
def clampPlayers (gs : GameState) : GameState :=
  { gs with player1 := clampPlayer gs.player1, player2 := clampPlayer gs.player2 }

/-- Source: GameEngine.ts lines 633-635: titan sizes are reasserted
every tick. -/
def titanSizeStep (gs : GameState) : GameState :=
  { gs with titan1 := { gs.titan1 with width := 60, height := 90 },
            titan2 := { gs.titan2 with width := 60, height := 90 } }

/-- Source: GameEngine.ts lines 638-640: an orb is shielded exactly
while its allied titan lives. -/
def orbShieldStep (gs : GameState) : GameState :=
  { gs with orb1 := { gs.orb1 with isShielded := !gs.titan1.isDead },
            orb2 := { gs.orb2 with isShielded := !gs.titan2.isDead } }

/-- Source: GameEngine.ts `updateTitanCharge` (lines 643-666):
proximity-charge build-up (3 s to full) while the allied player stands
near in the background lane, decay (1 s) otherwise, and an instant reset
when the player leaves the background lane. -/
def updateTitanCharge (dt : ℚ) (t : Titan) (pl : Player) : Titan :=
  if t.isDead then t
  else if pl.lane ≠ Lane.BACKGROUND then { t with proximityCharge := 0 }
  else
    let titanCenter := t.x + t.width / 2
    let playerCenter := pl.x + pl.width / 2
    let d := |titanCenter - playerCenter|
    if d < 70 ∧ ¬pl.isDead ∧ ¬pl.isRespawning then
      { t with proximityCharge := min 1 (t.proximityCharge + dt / 3) }
    else
      { t with proximityCharge := max 0 (t.proximityCharge - dt) }

/-- Source: GameEngine.ts lines 667-668. -/
def titanChargeStep (dt : ℚ) (gs : GameState) : GameState :=
  { gs with titan1 := updateTitanCharge dt gs.titan1 gs.player1,
            titan2 := updateTitanCharge dt gs.titan2 gs.player2 }

/-- Source: GameEngine.ts `baseRegenRate` (line 673). -/
def baseRegenRate : ℚ := 8

/-- Source: GameEngine.ts `getDynamicRegen` (lines 676-681): the regen
rate tier driven by the wall-clock time since last damage. -/
def getDynamicRegen (now : ℚ) (t : Titan) : ℚ :=
  let timeSinceHit := (now - t.lastDamageTime) / 1000
  if timeSinceHit > 20 then baseRegenRate * 4
  else if timeSinceHit > 5 then baseRegenRate * 2
  else baseRegenRate

/-- Source: GameEngine.ts `criticalThreshold` (line 672). -/
def criticalThreshold : ℚ := 0.35

/-- Source: GameEngine.ts lines 683-690: a surviving titan below the
critical threshold regenerates toward it while the enemy titan is dead.
-/
def titanRegenStep (dt now : ℚ) (gs : GameState) : GameState :=
  let gs :=
    if ¬gs.titan1.isDead ∧ gs.titan2.isDead ∧
       gs.titan1.health < gs.titan1.maxHealth * criticalThreshold then
      let rate := getDynamicRegen now gs.titan1
      { gs with titan1 := { gs.titan1 with
          health := min (gs.titan1.maxHealth * criticalThreshold)
                        (gs.titan1.health + rate * dt) } }
    else gs
  if ¬gs.titan2.isDead ∧ gs.titan1.isDead ∧
     gs.titan2.health < gs.titan2.maxHealth * criticalThreshold then
    let rate := getDynamicRegen now gs.titan2
    { gs with titan2 := { gs.titan2 with
        health := min (gs.titan2.maxHealth * criticalThreshold)
                      (gs.titan2.health + rate * dt) } }
  else gs

/-- Source: GameEngine.ts lines 692-706: the one-time death handling of
each titan; the instant a titan's death is first processed, a surviving
titan below the critical threshold is healed by 35% of its max health,
capped at max. -/
def secondWindStep (gs : GameState) : GameState :=
  let gs :=
    if gs.titan1.isDead ∧ ¬gs.titan1DeadHandled then
      let gs := { gs with titan1DeadHandled := true }
      if ¬gs.titan2.isDead ∧
         gs.titan2.health < gs.titan2.maxHealth * criticalThreshold then
        { gs with titan2 := { gs.titan2 with
            health := min gs.titan2.maxHealth
                          (gs.titan2.health + gs.titan2.maxHealth * criticalThreshold) } }
      else gs
    else gs
  if gs.titan2.isDead ∧ ¬gs.titan2DeadHandled then
    let gs := { gs with titan2DeadHandled := true }
    if ¬gs.titan1.isDead ∧
       gs.titan1.health < gs.titan1.maxHealth * criticalThreshold then
      { gs with titan1 := { gs.titan1 with
          health := min gs.titan1.maxHealth
                        (gs.titan1.health + gs.titan1.maxHealth * criticalThreshold) } }
    else gs
  else gs

/-- Source: GameEngine.ts lines 708-712: passive orb-armor
regeneration, 5x faster once the allied titan is dead. -/
def orbArmorRegenStep (dt : ℚ) (gs : GameState) : GameState :=
  let rate1 : ℚ := if gs.titan1.isDead then 25 else 5
  let rate2 : ℚ := if gs.titan2.isDead then 25 else 5
  { gs with orb1 := gs.orb1.regenerateArmor dt rate1,
            orb2 := gs.orb2.regenerateArmor dt rate2 }

/-- Source: GameEngine.ts `getClassSpeedModifier` (lines 719-726). -/
def getClassSpeedModifier : EntityType → ℚ
  | .NINJA => 1.15
  | .SAMURAI => 1
  | .MONK => 0.85
  | _ => 1

/-- Source: GameEngine.ts lines 714-810: the titan behavior state
machine.  Both alive: approach until within clash range, then hold and
roll the per-tick clash probability.  One dead: the survivor marches
toward the enemy orb (cancelling any charge), or at the orb deals
25 HP/s of direct damage and arms the one-time 45-second beam countdown
once the orb is at or below 35% health.  Both dead: halt and cancel any
charge. -/
def titanBehaviorStep (dt now roll : ℚ) (gs : GameState) : GameState :=
  let titan1 := gs.titan1
  let titan2 := gs.titan2
  let fightRange : ℚ := 60
  let dist := |titan1.x - titan2.x|
  if ¬titan1.isDead ∧ ¬titan2.isDead then
    let titan1SpeedMod := getClassSpeedModifier gs.player1.classType
    let titan2SpeedMod := getClassSpeedModifier gs.player2.classType
    let baseSpeed : ℚ := 10
    if dist > fightRange then
      { gs with titan1 := { titan1 with vx := baseSpeed * titan1SpeedMod },
                titan2 := { titan2 with vx := -baseSpeed * titan2SpeedMod } }
    else
      let gs := { gs with titan1 := { titan1 with vx := 0 },
                          titan2 := { titan2 with vx := 0 } }
      let titanDmg : ℚ :=
        if gs.player1.lane = Lane.BACKGROUND ∧ gs.player2.lane = Lane.BACKGROUND then
          16 else 28
      if roll < 0.008 then
        { gs with titan1 := (gs.titan1.takeDamage now titanDmg),
                  titan2 := (gs.titan2.takeDamage now titanDmg),
                  hitStop := 5,
                  lastAttackerId := some AttackerId.TITAN,
                  lastHitPos := some ((gs.titan1.x + gs.titan2.x) / 2, gs.titan1.y + 40) }
      else gs
  else
    if titan1.isDead ∧ ¬titan2.isDead then
      let targetX := gs.orb1.x + gs.orb1.width
      if titan2.x > targetX + 30 then
        { gs with titan2 := { titan2 with vx := -3 },
                  titanCharging := 0, titanChargeTimer := 0 }
      else
        let gs := { gs with titan2 := { titan2 with vx := 0 } }
        let newHealth := max 0 (gs.orb1.health - 25 * dt)
        let gs := { gs with orb1 := { gs.orb1 with health := newHealth, lastHitTime := now } }
        if gs.orb1.health ≤ gs.orb1.maxHealth * 0.35 then
          if gs.titanCharging ≠ 2 then
            { gs with titanCharging := 2, titanChargeTimer := 45 }
          else gs
        else gs
    else if titan2.isDead ∧ ¬titan1.isDead then
      let targetX := gs.orb2.x - titan1.width
      if titan1.x < targetX - 30 then
        { gs with titan1 := { titan1 with vx := 3 },
                  titanCharging := 0, titanChargeTimer := 0 }
      else
        let gs := { gs with titan1 := { titan1 with vx := 0 } }
        let newHealth := max 0 (gs.orb2.health - 25 * dt)
        let gs := { gs with orb2 := { gs.orb2 with health := newHealth, lastHitTime := now } }
        if gs.orb2.health ≤ gs.orb2.maxHealth * 0.35 then
          if gs.titanCharging ≠ 1 then
            { gs with titanCharging := 1, titanChargeTimer := 45 }
          else gs
        else gs
    else
      { gs with titan1 := { titan1 with vx := 0 },
                titan2 := { titan2 with vx := 0 },
                titanCharging := 0, titanChargeTimer := 0 }

/-- Source: GameEngine.ts lines 812-827: an armed siege-beam countdown
is decremented; on expiry the opposing orb's health is zeroed and it is
marked dead, with a large hit-stop. -/
def beamTimerStep (dt : ℚ) (gs : GameState) : GameState :=
  if gs.titanCharging > 0 ∧ gs.titanChargeTimer > 0 then
    let timer1 := gs.titanChargeTimer - dt
    if timer1 ≤ 0 then
      let gs := { gs with titanChargeTimer := timer1 }
      let gs :=
        if gs.titanCharging = 1 then
          { gs with orb2 := { gs.orb2 with health := 0, isDead := true } }
        else if gs.titanCharging = 2 then
          { gs with orb1 := { gs.orb1 with health := 0, isDead := true } }
        else gs
      { gs with hitStop := 30, lastAttackerId := some AttackerId.TITAN_BEAM }
    else { gs with titanChargeTimer := timer1 }
  else gs

/-- Source: GameEngine.ts lines 829-830: position integration for both
titans (`Entity.update`). -/
def titanMoveStep (dt : ℚ) (gs : GameState) : GameState :=
  { gs with titan1 := gs.titan1.updatePos dt, titan2 := gs.titan2.updatePos dt }

/-- Source: GameEngine.ts lines 832-837: the win evaluator — a dead orb
credits the opposing side. -/
def winStep (gs : GameState) : GameState :=
  if gs.orb1.isDead then { gs with winner := some 2 }
  else if gs.orb2.isDead then { gs with winner := some 1 }
  else gs

/-- Source: GameEngine.ts `update` (lines 83-838) with the wall-clock
reading and the random clash roll lifted to explicit arguments: the
winner guard, the hit-stop freeze (one frame consumed, nothing else
runs), then the respawn machine, both players (side 1 then side 2),
arena clamping, the titan controller, the siege-beam countdown, titan
movement, and the win evaluator. -/
def updateCore (dt : ℚ) (inp : Inputs) (now roll : ℚ) (gs : GameState) : GameState :=
  if gs.winner.isSome then gs
  else if 0 < gs.hitStop then { gs with hitStop := gs.hitStop - 1 }
  else
    winStep <|
    titanMoveStep dt <|
    beamTimerStep dt <|
    titanBehaviorStep dt now roll <|
    orbArmorRegenStep dt <|
    secondWindStep <|
    titanRegenStep dt now <|
    titanChargeStep dt <|
    orbShieldStep <|
    titanSizeStep <|
    clampPlayers <|
    handlePlayer dt now inp Key.ArrowLeft Key.ArrowRight Key.ArrowUp Key.ArrowDown
      Key.Enter Key.ShiftRight Key.ArrowUp Key.ShiftRight false <|
    handlePlayer dt now inp Key.KeyA Key.KeyD Key.KeyW Key.KeyS
      Key.Space Key.KeyQ Key.KeyW Key.KeyE true <|
    respawnPhase dt gs

/-- `GameEngine.update(dt, inputs)`: the simulation step, consuming the
wall clock and the clash roll from the environment.  The environment's
timeout flags are not read (they model callbacks that fire between
ticks; see `fireAttackTimeouts`). -/
def update (dt : ℚ) (inp : Inputs) (e : Env) (gs : GameState) : GameState :=
  updateCore dt inp e.now e.clashRoll gs

/-- The 200 ms `setTimeout(() => p.isAttacking = false, 200)` callbacks
scheduled at GameEngine.ts line 287, modelled as firing between ticks
according to the environment flags. -/
def fireAttackTimeouts (e : Env) (gs : GameState) : GameState :=
  let gs := if e.p1AtkTimeout then
      { gs with player1 := { gs.player1 with isAttacking := false } } else gs
  if e.p2AtkTimeout then
    { gs with player2 := { gs.player2 with isAttacking := false } } else gs

/-- Source: `Player` constructor of the current Entities.ts
(GameScene.tsx lines 340-358): 20x40 box, class health 800 (SAMURAI),
700 (NINJA) or 1000 (MONK) — any other class keeps the Fighter default
100 — and all Fighter/Player field initialisers (lines 247-295,
333-338); the dynamic `(p as any)` fields start at their JS-falsy
defaults. -/
def mkPlayer (id : ℕ) (x y : ℚ) (classType : EntityType) : Player :=
  let h : ℚ := match classType with
    | .SAMURAI => 800
    | .NINJA => 700
    | .MONK => 1000
    | .TITAN => 100
  { x := x, y := y, width := 20, height := 40, vx := 0, vy := 0,
    isDead := false, facingRight := true, health := h, maxHealth := h,
    attackCooldown := 0, isAttacking := false, isBlocking := false,
    lane := Lane.FOREGROUND, hitStun := 0, classType := classType, id := id,
    isCrouching := false, hitTargets := HitSet.empty, specialMeter := 0,
    isUsingSpecial := false, specialFrame := 0, isRespawning := false,
    isResurrecting := false, respawnTimer := 0, deathAnimFrame := 0,
    resurrectionAnimFrame := 0, wasInSameLane := false,
    defenseActivationCooldown := 0, laneSwitchCooldown := 0,
    lastFrameAtkPressed := false }

/-- Source: `Titan` constructor of the current Entities.ts
(GameScene.tsx lines 313-323): 2500 health, 100x150 box, background
lane; `proximityCharge` and `lastDamageTime` start at zero (lines
314-315). -/
def mkTitan (x y : ℚ) : Titan :=
  { x := x, y := y, width := 100, height := 150, vx := 0, vy := 0,
    isDead := false, facingRight := true, health := 2500, maxHealth := 2500,
    attackCooldown := 0, isAttacking := false, isBlocking := false,
    lane := Lane.BACKGROUND, hitStun := 0, classType := EntityType.TITAN,
    proximityCharge := 0, lastDamageTime := 0 }

/-- Source: `Orb` constructor of the current Entities.ts
(GameScene.tsx lines 393-408): 15x15 box, full health 7500 with 1875
armor, shield up (the allied titan lives at match start), one-shot
defense bonus inactive. -/
def mkOrb (x y : ℚ) (ownerId : ℕ) : Orb :=
  { x := x, y := y, width := 15, height := 15,
    health := 7500, maxHealth := 7500, armor := 1875, maxArmor := 1875,
    isDead := false, isShielded := true, hasDefenseBonus := false,
    lastHitTime := 0, ownerId := ownerId }

/-- Source: GameEngine.ts `initGame` (lines 49-81). -/
def initGame (p1Type p2Type : EntityType) : GameState :=
  let groundY : ℚ := 150
  let titan1 := mkTitan 60 10
  let titan2 := { mkTitan 200 10 with facingRight := false }
  let p1 := mkPlayer 1 40 (groundY - 40) p1Type
  let p2 := { mkPlayer 2 260 (groundY - 40) p2Type with facingRight := false }
  let orb1 := mkOrb 10 (groundY - 15) 1
  let orb2 := mkOrb 295 (groundY - 15) 2
  { player1 := p1, player2 := p2, titan1 := titan1, titan2 := titan2,
    orb1 := orb1, orb2 := orb2, winner := none, hitStop := 0,
    titanCharging := 0, titanChargeTimer := 0,
    lastHitPos := none, lastHitType := none, lastAttackerId := none,
    titan1DeadHandled := false, titan2DeadHandled := false,
    p1OrbCombo := 0, p2OrbCombo := 0, p1TitanCombo := 0, p2TitanCombo := 0,
    p1OrbComboCooldown := none, p2OrbComboCooldown := none,
    p1TitanComboCooldown := none, p2TitanComboCooldown := none }

/-! ### Bounds predicates (spec §8 invariant) -/

/-- `0 ≤ health ≤ maxHealth` for a player. -/
def PlayerOk (p : Player) : Prop := 0 ≤ p.health ∧ p.health ≤ p.maxHealth

/-- `0 ≤ health ≤ maxHealth` for a titan, together with the
proximity-charge range `[0, 1]` the engine maintains (GameEngine.ts
lines 661-664) and on which the damage multiplier's sign depends. -/
def TitanOk (t : Titan) : Prop :=
  0 ≤ t.health ∧ t.health ≤ t.maxHealth ∧
  0 ≤ t.proximityCharge ∧ t.proximityCharge ≤ 1

/-- `0 ≤ health ≤ maxHealth` and `0 ≤ armor ≤ maxArmor` for an orb. -/
def OrbOk (o : Orb) : Prop :=
  0 ≤ o.health ∧ o.health ≤ o.maxHealth ∧ 0 ≤ o.armor ∧ o.armor ≤ o.maxArmor

/-- The claimed invariant: health and armor bounds for every entity of
the world state. -/
def HealthArmorBounds (gs : GameState) : Prop :=
  PlayerOk gs.player1 ∧ PlayerOk gs.player2 ∧
  (0 ≤ gs.titan1.health ∧ gs.titan1.health ≤ gs.titan1.maxHealth) ∧
  (0 ≤ gs.titan2.health ∧ gs.titan2.health ≤ gs.titan2.maxHealth) ∧
  OrbOk gs.orb1 ∧ OrbOk gs.orb2

/-- The inductive strengthening of `HealthArmorBounds`: it additionally
carries the titan proximity-charge range, which every reachable state
satisfies (charges start at 0 and are clamped to `[0, 1]` each tick). -/
def WellFormed (gs : GameState) : Prop :=
  PlayerOk gs.player1 ∧ PlayerOk gs.player2 ∧
  TitanOk gs.titan1 ∧ TitanOk gs.titan2 ∧
  OrbOk gs.orb1 ∧ OrbOk gs.orb2

/-! ### Persistent-state projection (for the dt = 0 idempotence claim) -/

/-- Erase the per-tick bookkeeping fields of a player (lane-sync flag,
defense-activation cooldown, lane-switch debounce) by pinning them to a
canonical value: two players agree on everything else iff their images
agree. -/
def playerPersist (p : Player) : Player :=
  { p with wasInSameLane := false, defenseActivationCooldown := 0,
           laneSwitchCooldown := 0 }

/-- Erase the per-tick recomputed fields of a titan (AI velocity,
reasserted sprite size, proximity charge). -/
def titanPersist (t : Titan) : Titan :=
  { t with vx := 0, width := 0, height := 0, proximityCharge := 0 }

/-- Erase the last-hit timestamp of an orb. -/
def orbPersist (o : Orb) : Orb :=
  { o with lastHitTime := 0 }

/-- The persistent part of the world state: everything except the
per-tick bookkeeping/AI fields above and the siege-beam arming pair. -/
def statePersist (gs : GameState) : GameState :=
  { gs with player1 := playerPersist gs.player1,
            player2 := playerPersist gs.player2,
            titan1 := titanPersist gs.titan1,
            titan2 := titanPersist gs.titan2,
            orb1 := orbPersist gs.orb1,
            orb2 := orbPersist gs.orb2,
            titanCharging := 0, titanChargeTimer := 0 }

/-! ### Quiescence (for the dt = 0 idempotence analysis) -/

/-- The lane-sync/debounce bookkeeping a tick always performs on a
player even at `dt = 0` with nothing held (GameEngine.ts lines 172-185
and 249-263): exactly the three fields erased by `playerPersist`. -/
def quietMoveP (p enemy : Player) : Player :=
  let isInSameLane := decide (p.lane = enemy.lane)
  let cd0 := if isInSameLane && !p.wasInSameLane then 30 else p.defenseActivationCooldown
  let cd1 := if cd0 > 0 then cd0 - 1 else cd0
  let lsc1 := if p.laneSwitchCooldown > 0 then p.laneSwitchCooldown - 1
              else p.laneSwitchCooldown
  { p with wasInSameLane := isInSameLane, defenseActivationCooldown := cd1,
           laneSwitchCooldown := lsc1 }

/-- A quiescent player: alive, idle on the ground line of its lane,
inside the arena, with no transient combat state pending. -/
def QuietPlayer (p : Player) : Prop :=
  p.isDead = false ∧ p.isRespawning = false ∧ p.isResurrecting = false ∧
  p.isUsingSpecial = false ∧ p.isBlocking = false ∧ p.isCrouching = false ∧
  p.lastFrameAtkPressed = false ∧ p.vx = 0 ∧ p.vy = 0 ∧
  p.y = groundYFor p.lane ∧ 0 ≤ p.x ∧ p.x ≤ ARENA_WIDTH - p.width

/-- A quiescent orb: alive, armor within bounds, shield up. -/
def QuietOrb (o : Orb) : Prop :=
  o.isDead = false ∧ o.armor ≤ o.maxArmor ∧ o.isShielded = true

/-- A quiescent world: no winner yet, no hit-stop, no armed siege beam,
both titans alive, both players and both orbs quiescent. -/
def Quiescent (gs : GameState) : Prop :=
  gs.winner = none ∧ gs.hitStop = 0 ∧ gs.titanCharging = 0 ∧
  gs.titan1.isDead = false ∧ gs.titan2.isDead = false ∧
  QuietPlayer gs.player1 ∧ QuietPlayer gs.player2 ∧
  QuietOrb gs.orb1 ∧ QuietOrb gs.orb2

/-! ### Concrete states for witnesses and counterexamples -/

/-- A reference environment: wall clock at 0 ms, clash roll 1 (no
clash), no pending attack timeouts. -/
def envA : Env := { now := 0, clashRoll := 1, p1AtkTimeout := false, p2AtkTimeout := false }

/-- Same wall clock as `envA` but a clash roll of 0 (clash succeeds). -/
def envB : Env := { now := 0, clashRoll := 0, p1AtkTimeout := false, p2AtkTimeout := false }

/-- The initial match state for two SAMURAI players. -/
def sInit : GameState := initGame EntityType.SAMURAI EntityType.SAMURAI

/-- The initial state with the titans moved within clash range. -/
def sClash : GameState := { sInit with titan2 := { sInit.titan2 with x := 100 } }

/-- The initial state with three hit-stop frames pending. -/
def sHitstop : GameState := { sInit with hitStop := 3 }

/-- A concrete attacker for the hitbox-zone witnesses: SAMURAI at
(100, 110) facing right in the foreground lane. -/
def pAtkW : Player := mkPlayer 1 100 110 EntityType.SAMURAI

/-- A concrete defender whose box (x 120-128) lies inside the
attacker's handle zone (x 112-130) and outside its blade zone
(x 130-165). -/
def pDefW : Player := { mkPlayer 2 120 110 EntityType.SAMURAI with width := 8 }

/-- A neutral view slice for concrete `handlePlayer`-phase runs. -/
def vNeutral : PView :=
  { p := pAtkW, enemy := pDefW, enemyTitan := mkTitan 200 10,
    targetOrb := mkOrb 295 135 2, hitStop := 0,
    lastHitPos := none, lastHitType := none, lastAttackerId := none,
    myOrbCombo := 0, myOrbComboCooldown := none,
    myTitanCombo := 0, myTitanComboCooldown := none,
    enemyOrbCombo := 0, enemyOrbComboCooldown := none,
    enemyTitanCombo := 0, enemyTitanComboCooldown := none }

/-- The handle-zone-only target rectangle used by the titan-exception
witness. -/
def tbHandleW : Rect := { x := 120, y := 110, w := 8, h := 40 }

/-- A crouching player that still carries leftward velocity from the
previous tick. -/
def vCrouchSlide : PView :=
  { vNeutral with p := { pAtkW with isCrouching := true, vx := -60 } }

/-- Titan 1 dead, titan 2 adjacent to orb 1 (x = 50 ≤ 10 + 15 + 30),
orb 1 sieged down to health 100 (below 35% of 7500), no beam armed. -/
def sSiegeA : GameState :=
  { sInit with titan1 := { sInit.titan1 with isDead := true },
               titan2 := { sInit.titan2 with x := 50 },
               orb1 := { sInit.orb1 with health := 100 } }

/-- As `sSiegeA` but with the side-2 beam already armed (30 s left). -/
def sSiegeB : GameState := { sSiegeA with titanCharging := 2, titanChargeTimer := 30 }

/-- A side-2 beam countdown one half-frame from expiry. -/
def sBeamC : GameState := { sInit with titanCharging := 2, titanChargeTimer := 1/120 }

/-- A side-1 beam countdown one half-frame from expiry. -/
def sBeamD : GameState := { sInit with titanCharging := 1, titanChargeTimer := 1/120 }

/-- Titan 1 freshly dead (death not yet handled), titan 2 at health 600,
below the 35% critical threshold (875) of its 2500 max. -/
def sWindA : GameState :=
  { sInit with titan1 := { sInit.titan1 with isDead := true },
               titan2 := { sInit.titan2 with health := 600 } }

/-- Titan 1's death already handled. -/
def sWindB : GameState := { sInit with titan1DeadHandled := true }

/-- Titan 1 dead, titan 2 still far (x = 200) from orb 1. -/
def sMarchC : GameState := { sInit with titan1 := { sInit.titan1 with isDead := true } }

/-- Titan 2 dead, titan 1 adjacent to orb 2 (x = 200, past the
march-stop line 295 - 100 - 30 = 165). -/
def sSiegeMirror : GameState :=
  { sInit with titan2 := { sInit.titan2 with isDead := true },
               titan1 := { sInit.titan1 with x := 200 } }

/-! ## Helper lemmas for the bounds invariant -/

lemma WEAPON_STATS_damage_nonneg (c : EntityType) : 0 ≤ (WEAPON_STATS c).damage := by
  cases c <;> norm_num [WEAPON_STATS]

lemma takeDamageHealth_nonneg (b : Bool) (h a : ℚ) : 0 ≤ takeDamageHealth b h a := by
  unfold takeDamageHealth
  split_ifs <;> exact le_max_left 0 _

lemma takeDamageHealth_le (b : Bool) (h M a : ℚ) (h0 : 0 ≤ h) (hM : h ≤ M)
    (ha : 0 ≤ a) : takeDamageHealth b h a ≤ M := by
  unfold takeDamageHealth
  split_ifs <;> apply max_le (by linarith) (by nlinarith)

lemma playerTakeDamage_ok (p : Player) (a : ℚ) (hp : PlayerOk p) (ha : 0 ≤ a) :
    PlayerOk (p.takeDamage a) := by
  obtain ⟨h0, hM⟩ := hp
  simp only [Player.takeDamage]
  split_ifs <;>
    exact ⟨takeDamageHealth_nonneg _ _ _, takeDamageHealth_le _ _ _ _ h0 hM ha⟩

lemma titanTakeDamage_ok (t : Titan) (now a : ℚ) (ht : TitanOk t) (ha : 0 ≤ a) :
    TitanOk (t.takeDamage now a) := by
  obtain ⟨h0, hM, c0, c1⟩ := ht
  simp only [Titan.takeDamage]
  exact ⟨takeDamageHealth_nonneg _ _ _, takeDamageHealth_le _ _ _ _ h0 hM ha, c0, c1⟩

lemma orbTakeDamage_ok (o : Orb) (now a : ℚ) (sp cp : Bool) (ho : OrbOk o)
    (ha : 0 ≤ a) : OrbOk (o.takeDamage now a sp cp) := by
  obtain ⟨h0, hM, a0, aM⟩ := ho
  simp only [Orb.takeDamage, OrbOk]
  set red := (if o.hasDefenseBonus = true then a * 0.75 else a) with hredDef
  have hr : 0 ≤ red := by
    rw [hredDef]
    split_ifs <;> linarith
  set dir := (if (cp && o.hasDefenseBonus) = true then red * 0.2 else 0) with hdirDef
  have hd0 : 0 ≤ dir := by
    rw [hdirDef]
    split_ifs <;> linarith
  have hdle : dir ≤ red := by
    rw [hdirDef]
    split_ifs <;> linarith
  set ad := (if o.armor > 0 then min o.armor (red - dir) else 0) with hadDef
  have had0 : 0 ≤ ad := by
    rw [hadDef]
    split_ifs
    · exact le_min a0 (by linarith)
    · exact le_refl 0
  have hada : ad ≤ o.armor := by
    rw [hadDef]
    split_ifs
    · exact min_le_left _ _
    · exact a0
  have hadr : ad ≤ red - dir := by
    rw [hadDef]
    split_ifs
    · exact min_le_right _ _
    · linarith
  refine ⟨?_, ?_, by linarith, by linarith⟩
  · split_ifs
    · exact le_max_left _ _
    · exact h0
  · split_ifs with hT
    · exact max_le (by linarith) (by linarith)
    · exact hM

lemma Player.respawn_ok (p : Player) (a b c : ℚ) (hp : PlayerOk p) :
    PlayerOk (p.respawn a b c) := by
  obtain ⟨h0, hM⟩ := hp
  have hM0 : 0 ≤ p.maxHealth := le_trans h0 hM
  simp only [Player.respawn, PlayerOk]
  constructor
  · exact_mod_cast Int.floor_nonneg.mpr (by nlinarith)
  · exact (Int.floor_le _).trans (by nlinarith)

lemma getDynamicRegen_nonneg (now : ℚ) (t : Titan) : 0 ≤ getDynamicRegen now t := by
  simp only [getDynamicRegen]
  split_ifs <;> norm_num [baseRegenRate]

/-- The part of the world state a `handlePlayer` view must keep within
bounds. -/
def ViewOk (v : PView) : Prop :=
  PlayerOk v.p ∧ PlayerOk v.enemy ∧ TitanOk v.enemyTitan ∧ OrbOk v.targetOrb

lemma mkView_ok (isP1 : Bool) (gs : GameState) (h : WellFormed gs) :
    ViewOk (mkView isP1 gs) := by
  obtain ⟨h1, h2, h3, h4, h5, h6⟩ := h
  cases isP1 <;> simp [mkView, ViewOk] <;>
    exact ⟨by assumption, by assumption, by assumption, by assumption⟩

lemma writeBack_wf (isP1 : Bool) (v : PView) (gs : GameState)
    (hv : ViewOk v) (h : WellFormed gs) : WellFormed (writeBack isP1 v gs) := by
  obtain ⟨g1, g2, g3, g4, g5, g6⟩ := h
  obtain ⟨v1, v2, v3, v4⟩ := hv
  have h3 : 0 ≤ gs.titan1.health ∧ gs.titan1.health ≤ gs.titan1.maxHealth ∧
      0 ≤ gs.titan1.proximityCharge ∧ gs.titan1.proximityCharge ≤ 1 := g3
  cases isP1 <;> simp [writeBack, WellFormed] <;>
    exact ⟨by assumption, by assumption, by assumption, by assumption,
           by assumption, by assumption⟩

lemma movePhase_viewOk (dt : ℚ) (l r dn j sw : Bool) (v : PView) (hv : ViewOk v) :
    ViewOk (movePhase dt l r dn j sw v) := by
  obtain ⟨⟨a1, a2⟩, b, c, d⟩ := hv
  exact ⟨⟨a1, a2⟩, b, c, d⟩

lemma startSwing_viewOk (v : PView) (hv : ViewOk v) : ViewOk (startSwing v) := by
  obtain ⟨⟨a1, a2⟩, b, c, d⟩ := hv
  exact ⟨⟨a1, a2⟩, b, c, d⟩

lemma startSpecial_viewOk (v : PView) (hv : ViewOk v) : ViewOk (startSpecial v) := by
  obtain ⟨⟨a1, a2⟩, b, c, d⟩ := hv
  exact ⟨⟨a1, a2⟩, b, c, d⟩

lemma setLastAtk_viewOk (v : PView) (b : Bool) (hv : ViewOk v) :
    ViewOk (setLastAtk v b) := by
  obtain ⟨⟨a1, a2⟩, hb, c, d⟩ := hv
  exact ⟨⟨a1, a2⟩, hb, c, d⟩

lemma comboResets_viewOk (now : ℚ) (v : PView) (hv : ViewOk v) :
    ViewOk (comboResets now v) := by
  obtain ⟨⟨a1, a2⟩, b, c, d⟩ := hv
  simp only [comboResets]
  split_ifs <;> exact ⟨⟨a1, a2⟩, b, c, d⟩

lemma resolvePlayerTarget_viewOk (isP1 : Bool) (now : ℚ) (v : PView) (hv : ViewOk v) :
    ViewOk (resolvePlayerTarget isP1 now v) := by
  obtain ⟨hp, he, ht, ho⟩ := hv
  simp only [resolvePlayerTarget]
  split
  · exact ⟨hp, he, ht, ho⟩
  · split
    · refine ⟨⟨hp.1, hp.2⟩, playerTakeDamage_ok _ _ he ?_, ht, ho⟩
      apply mul_nonneg (WEAPON_STATS_damage_nonneg _)
      split_ifs <;>
        first
        | (norm_num; done)
        | nlinarith [Nat.cast_nonneg (α := ℚ) (min 10 (v.myTitanCombo + 1))]
    · exact ⟨hp, he, ht, ho⟩

lemma resolveTitanTarget_viewOk (isP1 : Bool) (now : ℚ) (v : PView) (hv : ViewOk v) :
    ViewOk (resolveTitanTarget isP1 now v) := by
  obtain ⟨hp, he, ht, ho⟩ := hv
  have hc2 : v.enemyTitan.proximityCharge ≤ 1 := ht.2.2.2
  simp only [resolveTitanTarget]
  split
  · exact ⟨hp, he, ht, ho⟩
  · split
    · refine ⟨⟨hp.1, hp.2⟩, he, titanTakeDamage_ok _ _ _ ht ?_, ho⟩
      apply mul_nonneg (WEAPON_STATS_damage_nonneg _)
      split_ifs <;> first | positivity | nlinarith [Nat.cast_nonneg (α := ℚ) (min 10 (v.myTitanCombo + 1))]
    · exact ⟨hp, he, ht, ho⟩

lemma resolveOrbTarget_viewOk (isP1 : Bool) (now : ℚ) (v : PView) (hv : ViewOk v) :
    ViewOk (resolveOrbTarget isP1 now v).1 := by
  obtain ⟨hp, he, ht, ho⟩ := hv
  simp only [resolveOrbTarget]
  split
  · split
    · exact ⟨hp, he, ht, ho⟩
    · split
      · refine ⟨⟨hp.1, hp.2⟩, he, ht,
          orbTakeDamage_ok _ _ _ false v.enemyTitan.isDead ho ?_⟩
        repeat' apply mul_nonneg
        all_goals try split_ifs
        all_goals
          first
          | exact WEAPON_STATS_damage_nonneg _
          | (norm_num; done)
          | nlinarith [Nat.cast_nonneg (α := ℚ) (min 10 (v.myOrbCombo + 1))]
      · exact ⟨hp, he, ht, ho⟩
  · exact ⟨hp, he, ht, ho⟩

lemma specialPhase_viewOk (isP1 : Bool) (now : ℚ) (v : PView) (hv : ViewOk v) :
    ViewOk (specialPhase isP1 now v) := by
  obtain ⟨hp, he, ht, ho⟩ := hv
  simp only [specialPhase]
  split
  · exact ⟨hp, he, ht, ho⟩
  · refine ⟨?_, ?_, ?_, ?_⟩
    · split_ifs <;> exact ⟨hp.1, hp.2⟩
    · split_ifs <;>
        first
        | exact he
        | exact playerTakeDamage_ok _ _ he (by norm_num)
    · split_ifs <;>
        first
        | exact ht
        | exact titanTakeDamage_ok _ _ _ ht (by norm_num)
    · split_ifs <;>
        first
        | exact ho
        | exact orbTakeDamage_ok _ _ _ true v.enemyTitan.isDead ho (by norm_num)

lemma handlePlayer_wf (dt now : ℚ) (inp : Inputs)
    (k1 k2 k3 k4 k5 k6 k7 k8 : Key) (isP1 : Bool) (gs : GameState)
    (hwf : WellFormed gs) :
    WellFormed (handlePlayer dt now inp k1 k2 k3 k4 k5 k6 k7 k8 isP1 gs) := by
  have hb2 : ∀ v : PView, ViewOk v →
      WellFormed (writeBack isP1 (startSpecial (startSwing v)) gs) := fun v hv =>
    writeBack_wf _ _ _ (startSpecial_viewOk _ (startSwing_viewOk _ hv)) hwf
  have hb3 : ∀ v : PView, ViewOk v →
      WellFormed (writeBack isP1
        (resolveOrbTarget isP1 now (resolveTitanTarget isP1 now
          (resolvePlayerTarget isP1 now (startSwing v)))).1 gs) := fun v hv =>
    writeBack_wf _ _ _
      (resolveOrbTarget_viewOk _ _ _ (resolveTitanTarget_viewOk _ _ _
        (resolvePlayerTarget_viewOk _ _ _ (startSwing_viewOk _ hv)))) hwf
  have hb4 : ∀ (v : PView) (b : Bool), ViewOk v →
      WellFormed (writeBack isP1
        (specialPhase isP1 now (setLastAtk (comboResets now
          (resolveOrbTarget isP1 now (resolveTitanTarget isP1 now
            (resolvePlayerTarget isP1 now (startSwing v)))).1) b)) gs) := fun v b hv =>
    writeBack_wf _ _ _
      (specialPhase_viewOk _ _ _ (setLastAtk_viewOk _ _ (comboResets_viewOk _ _
        (resolveOrbTarget_viewOk _ _ _ (resolveTitanTarget_viewOk _ _ _
          (resolvePlayerTarget_viewOk _ _ _ (startSwing_viewOk _ hv))))))) hwf
  have hb5 : ∀ (v : PView) (b : Bool), ViewOk v →
      WellFormed (writeBack isP1
        (specialPhase isP1 now (setLastAtk v b)) gs) := fun v b hv =>
    writeBack_wf _ _ _
      (specialPhase_viewOk _ _ _ (setLastAtk_viewOk _ _ hv)) hwf
  have hmv : ∀ b1 b2 b3 b4 b5 : Bool,
      ViewOk (movePhase dt b1 b2 b3 b4 b5 (mkView isP1 gs)) := fun b1 b2 b3 b4 b5 =>
    movePhase_viewOk _ _ _ _ _ _ _ (mkView_ok _ _ hwf)
  simp only [handlePlayer]
  split_ifs
  · exact hwf
  · exact hb2 _ (hmv _ _ _ _ _)
  · exact hb3 _ (hmv _ _ _ _ _)
  · exact hb4 _ _ (hmv _ _ _ _ _)
  · exact hb5 _ _ (hmv _ _ _ _ _)
  · exact hwf
  · exact hb2 _ (hmv _ _ _ _ _)
  · exact hb3 _ (hmv _ _ _ _ _)
  · exact hb4 _ _ (hmv _ _ _ _ _)
  · exact hb5 _ _ (hmv _ _ _ _ _)

/-! ### Per-step preservation of well-formedness (for C3) -/

lemma respawnTickP1_wf (dt : ℚ) (gs : GameState) (hwf : WellFormed gs) :
    WellFormed (respawnTickP1 dt gs) := by
  obtain ⟨p1, p2, t1, t2, o1, o2⟩ := hwf
  simp only [respawnTickP1]
  split_ifs
  · exact ⟨Player.respawn_ok
      { gs.player1 with respawnTimer := gs.player1.respawnTimer - dt,
                        deathAnimFrame := gs.player1.deathAnimFrame + 1 }
      gs.orb1.activateDefenseBonus.x gs.orb1.activateDefenseBonus.y laneY_FG p1,
      p2, t1, t2, o1, o2⟩
  · exact ⟨p1, p2, t1, t2, o1, o2⟩
  · exact ⟨p1, p2, t1, t2, o1, o2⟩

lemma resurrectTickP1_wf (gs : GameState) (hwf : WellFormed gs) :
    WellFormed (resurrectTickP1 gs) := by
  obtain ⟨p1, p2, t1, t2, o1, o2⟩ := hwf
  simp only [resurrectTickP1]
  split_ifs <;> exact ⟨p1, p2, t1, t2, o1, o2⟩

lemma respawnTickP2_wf (dt : ℚ) (gs : GameState) (hwf : WellFormed gs) :
    WellFormed (respawnTickP2 dt gs) := by
  obtain ⟨p1, p2, t1, t2, o1, o2⟩ := hwf
  simp only [respawnTickP2]
  split_ifs
  · exact ⟨p1, Player.respawn_ok
      { gs.player2 with respawnTimer := gs.player2.respawnTimer - dt,
                        deathAnimFrame := gs.player2.deathAnimFrame + 1 }
      gs.orb2.activateDefenseBonus.x gs.orb2.activateDefenseBonus.y laneY_FG p2,
      t1, t2, o1, o2⟩
  · exact ⟨p1, p2, t1, t2, o1, o2⟩
  · exact ⟨p1, p2, t1, t2, o1, o2⟩

lemma resurrectTickP2_wf (gs : GameState) (hwf : WellFormed gs) :
    WellFormed (resurrectTickP2 gs) := by
  obtain ⟨p1, p2, t1, t2, o1, o2⟩ := hwf
  simp only [resurrectTickP2]
  split_ifs <;> exact ⟨p1, p2, t1, t2, o1, o2⟩

lemma respawnPhase_wf (dt : ℚ) (gs : GameState) (hwf : WellFormed gs) :
    WellFormed (respawnPhase dt gs) :=
  resurrectTickP2_wf _ (respawnTickP2_wf _ _ (resurrectTickP1_wf _ (respawnTickP1_wf _ _ hwf)))

lemma clampPlayer_ok (p : Player) (hp : PlayerOk p) : PlayerOk (clampPlayer p) := by
  simp only [clampPlayer]
  split_ifs <;> exact hp

lemma clampPlayers_wf (gs : GameState) (hwf : WellFormed gs) :
    WellFormed (clampPlayers gs) :=
  ⟨clampPlayer_ok _ hwf.1, clampPlayer_ok _ hwf.2.1, hwf.2.2.1, hwf.2.2.2.1,
   hwf.2.2.2.2.1, hwf.2.2.2.2.2⟩

lemma titanSizeStep_wf (gs : GameState) (hwf : WellFormed gs) :
    WellFormed (titanSizeStep gs) := hwf

lemma orbShieldStep_wf (gs : GameState) (hwf : WellFormed gs) :
    WellFormed (orbShieldStep gs) := hwf

lemma updateTitanCharge_ok (dt : ℚ) (t : Titan) (pl : Player) (hdt : 0 ≤ dt)
    (ht : TitanOk t) : TitanOk (updateTitanCharge dt t pl) := by
  obtain ⟨h1, h2, h3, h4⟩ := ht
  simp only [updateTitanCharge]
  split_ifs
  · exact ⟨h1, h2, h3, h4⟩
  · exact ⟨h1, h2, le_refl 0, zero_le_one⟩
  · exact ⟨h1, h2, le_min zero_le_one (by linarith), min_le_left _ _⟩
  · exact ⟨h1, h2, le_max_left _ _, max_le zero_le_one (by linarith)⟩

lemma titanChargeStep_wf (dt : ℚ) (gs : GameState) (hdt : 0 ≤ dt)
    (hwf : WellFormed gs) : WellFormed (titanChargeStep dt gs) :=
  ⟨hwf.1, hwf.2.1, updateTitanCharge_ok dt _ _ hdt hwf.2.2.1,
   updateTitanCharge_ok dt _ _ hdt hwf.2.2.2.1, hwf.2.2.2.2.1, hwf.2.2.2.2.2⟩

lemma titanRegenOne_ok (dt now : ℚ) (t : Titan) (hdt : 0 ≤ dt) (ht : TitanOk t) :
    TitanOk { t with health := min (t.maxHealth * criticalThreshold)
                                   (t.health + getDynamicRegen now t * dt) } := by
  obtain ⟨h1, h2, h3, h4⟩ := ht
  have hm : 0 ≤ t.maxHealth := h1.trans h2
  have hr : 0 ≤ getDynamicRegen now t := getDynamicRegen_nonneg now t
  refine ⟨le_min ?_ (add_nonneg h1 (mul_nonneg hr hdt)),
          (min_le_left _ _).trans ?_, h3, h4⟩ <;>
    · simp only [criticalThreshold]
      linarith

lemma titanRegenStep_wf (dt now : ℚ) (gs : GameState) (hdt : 0 ≤ dt)
    (hwf : WellFormed gs) : WellFormed (titanRegenStep dt now gs) := by
  obtain ⟨p1, p2, t1, t2, o1, o2⟩ := hwf
  simp only [titanRegenStep]
  split_ifs <;>
    refine ⟨?_, ?_, ?_, ?_, ?_, ?_⟩ <;>
      first
      | exact p1
      | exact p2
      | exact t1
      | exact t2
      | exact o1
      | exact o2
      | exact titanRegenOne_ok dt now _ hdt t1
      | exact titanRegenOne_ok dt now _ hdt t2

lemma secondWindOne_ok (t : Titan) (ht : TitanOk t) :
    TitanOk { t with health := min t.maxHealth
                                   (t.health + t.maxHealth * criticalThreshold) } := by
  obtain ⟨h1, h2, h3, h4⟩ := ht
  have hm : 0 ≤ t.maxHealth := h1.trans h2
  refine ⟨le_min hm ?_, min_le_left _ _, h3, h4⟩
  simp only [criticalThreshold]
  linarith

lemma secondWindStep_wf (gs : GameState) (hwf : WellFormed gs) :
    WellFormed (secondWindStep gs) := by
  obtain ⟨p1, p2, t1, t2, o1, o2⟩ := hwf
  simp only [secondWindStep]
  split_ifs <;>
    refine ⟨?_, ?_, ?_, ?_, ?_, ?_⟩ <;>
      first
      | exact p1
      | exact p2
      | exact t1
      | exact t2
      | exact o1
      | exact o2
      | exact secondWindOne_ok _ t1
      | exact secondWindOne_ok _ t2

lemma regenerateArmor_ok (o : Orb) (dt rate : ℚ) (hdt : 0 ≤ dt) (hr : 0 ≤ rate)
    (ho : OrbOk o) : OrbOk (o.regenerateArmor dt rate) := by
  obtain ⟨h1, h2, h3, h4⟩ := ho
  have hm : 0 ≤ o.maxArmor := h3.trans h4
  simp only [Orb.regenerateArmor]
  split_ifs
  · exact ⟨h1, h2, le_min hm (by positivity), min_le_left _ _⟩
  · exact ⟨h1, h2, h3, h4⟩

lemma orbArmorRegenStep_wf (dt : ℚ) (gs : GameState) (hdt : 0 ≤ dt)
    (hwf : WellFormed gs) : WellFormed (orbArmorRegenStep dt gs) := by
  obtain ⟨p1, p2, t1, t2, o1, o2⟩ := hwf
  simp only [orbArmorRegenStep]
  refine ⟨p1, p2, t1, t2, ?_, ?_⟩
  · exact regenerateArmor_ok _ _ _ hdt (by split_ifs <;> norm_num) o1
  · exact regenerateArmor_ok _ _ _ hdt (by split_ifs <;> norm_num) o2

lemma orbSiege_ok (o : Orb) (now dt : ℚ) (hdt : 0 ≤ dt) (ho : OrbOk o) :
    OrbOk { o with health := max 0 (o.health - 25 * dt), lastHitTime := now } := by
  obtain ⟨h1, h2, h3, h4⟩ := ho
  exact ⟨le_max_left _ _, max_le (h1.trans h2) (by linarith), h3, h4⟩

lemma titanBehaviorStep_wf (dt now roll : ℚ) (gs : GameState) (hdt : 0 ≤ dt)
    (hwf : WellFormed gs) : WellFormed (titanBehaviorStep dt now roll gs) := by
  obtain ⟨p1, p2, t1, t2, o1, o2⟩ := hwf
  simp only [titanBehaviorStep]
  split_ifs
  · exact ⟨p1, p2, t1, t2, o1, o2⟩
  · refine ⟨p1, p2, titanTakeDamage_ok _ _ _ ?_ (by norm_num),
            titanTakeDamage_ok _ _ _ ?_ (by norm_num), o1, o2⟩
    · exact t1
    · exact t2
  · refine ⟨p1, p2, titanTakeDamage_ok _ _ _ ?_ (by norm_num),
            titanTakeDamage_ok _ _ _ ?_ (by norm_num), o1, o2⟩
    · exact t1
    · exact t2
  · exact ⟨p1, p2, t1, t2, o1, o2⟩
  · exact ⟨p1, p2, t1, t2, o1, o2⟩
  · exact ⟨p1, p2, t1, t2, orbSiege_ok gs.orb1 now dt hdt o1, o2⟩
  · exact ⟨p1, p2, t1, t2, orbSiege_ok gs.orb1 now dt hdt o1, o2⟩
  · exact ⟨p1, p2, t1, t2, orbSiege_ok gs.orb1 now dt hdt o1, o2⟩
  · exact ⟨p1, p2, t1, t2, o1, o2⟩
  · exact ⟨p1, p2, t1, t2, o1, orbSiege_ok gs.orb2 now dt hdt o2⟩
  · exact ⟨p1, p2, t1, t2, o1, orbSiege_ok gs.orb2 now dt hdt o2⟩
  · exact ⟨p1, p2, t1, t2, o1, orbSiege_ok gs.orb2 now dt hdt o2⟩
  · exact ⟨p1, p2, t1, t2, o1, o2⟩

lemma beamTimerStep_wf (dt : ℚ) (gs : GameState) (hwf : WellFormed gs) :
    WellFormed (beamTimerStep dt gs) := by
  obtain ⟨p1, p2, t1, t2, o1, o2⟩ := hwf
  simp only [beamTimerStep]
  split_ifs <;>
    first
    | exact ⟨p1, p2, t1, t2, o1, o2⟩
    | exact ⟨p1, p2, t1, t2, o1, le_refl 0, o2.1.trans o2.2.1, o2.2.2.1, o2.2.2.2⟩
    | exact ⟨p1, p2, t1, t2, ⟨le_refl 0, o1.1.trans o1.2.1, o1.2.2.1, o1.2.2.2⟩, o2⟩

lemma titanMoveStep_wf (dt : ℚ) (gs : GameState) (hwf : WellFormed gs) :
    WellFormed (titanMoveStep dt gs) := hwf

lemma winStep_wf (gs : GameState) (hwf : WellFormed gs) :
    WellFormed (winStep gs) := by
  simp only [winStep]
  split_ifs <;> exact hwf

lemma updateCore_wf (dt : ℚ) (inp : Inputs) (now roll : ℚ) (gs : GameState)
    (hdt : 0 ≤ dt) (hwf : WellFormed gs) :
    WellFormed (updateCore dt inp now roll gs) := by
  simp only [updateCore]
  split_ifs
  · exact hwf
  · exact hwf
  · exact winStep_wf _
      (titanMoveStep_wf _ _
        (beamTimerStep_wf _ _
          (titanBehaviorStep_wf _ _ _ _ hdt
            (orbArmorRegenStep_wf _ _ hdt
              (secondWindStep_wf _
                (titanRegenStep_wf _ _ _ hdt
                  (titanChargeStep_wf _ _ hdt
                    (orbShieldStep_wf _
                      (titanSizeStep_wf _
                        (clampPlayers_wf _
                          (handlePlayer_wf _ _ _ _ _ _ _ _ _ _ _ _ _
                            (handlePlayer_wf _ _ _ _ _ _ _ _ _ _ _ _ _
                              (respawnPhase_wf _ _ hwf)))))))))))))

lemma update_wf (dt : ℚ) (inp : Inputs) (e : Env) (gs : GameState)
    (hdt : 0 ≤ dt) (hwf : WellFormed gs) : WellFormed (update dt inp e gs) :=
  updateCore_wf dt inp e.now e.clashRoll gs hdt hwf

lemma wellFormed_bounds (gs : GameState) (h : WellFormed gs) :
    HealthArmorBounds gs :=
  ⟨h.1, h.2.1, ⟨h.2.2.1.1, h.2.2.1.2.1⟩, ⟨h.2.2.2.1.1, h.2.2.2.1.2.1⟩,
   h.2.2.2.2.1, h.2.2.2.2.2⟩


/-! ### Per-step behaviour of the quiescent tick (for C5) -/

lemma setLastAtk_self (v : PView) (h : v.p.lastFrameAtkPressed = false) :
    setLastAtk v false = v := by
  conv_lhs => rw [← h]
  rfl

lemma specialPhase_skip (isP1 : Bool) (now : ℚ) (v : PView)
    (h : v.p.isUsingSpecial = false) : specialPhase isP1 now v = v := by
  simp [specialPhase, h]

lemma updatePos_zero (t : Titan) : t.updatePos 0 = t := by
  simp [Titan.updatePos]

lemma titanMoveStep_zero (x : GameState) : titanMoveStep 0 x = x := by
  simp only [titanMoveStep, updatePos_zero]

lemma regenerateArmor_zero (o : Orb) (rate : ℚ) (h : o.armor ≤ o.maxArmor) :
    o.regenerateArmor 0 rate = o := by
  simp only [Orb.regenerateArmor]
  split_ifs with hlt
  · rw [show min o.maxArmor (o.armor + rate * 0) = o.armor by
      rw [mul_zero, add_zero]
      exact min_eq_right hlt.le]
  · rfl

lemma movePhase_quiet (v : PView) (hq : QuietPlayer v.p) :
    movePhase 0 false false false false false v =
      { v with p := quietMoveP v.p v.enemy } := by
  obtain ⟨hd, hrs, hrz, hus, hb, hc, hl, hvx, hvy, hy, hx0, hx1⟩ := hq
  have hgy : decide (groundYFor v.p.lane ≥ groundYFor v.p.lane) = true :=
    decide_eq_true (le_refl _)
  have h00 : decide ((0:ℚ) < 0) = false := by simp
  simp [movePhase, quietMoveP, hy, hgy, h00, hb, hc, hvx, hvy]

lemma handlePlayer_quiet_p1 (now : ℚ) (k1 k2 k3 k4 k5 k6 k7 k8 : Key)
    (gs : GameState) (hq : QuietPlayer gs.player1) :
    handlePlayer 0 now noInputs k1 k2 k3 k4 k5 k6 k7 k8 true gs =
      { gs with player1 := quietMoveP gs.player1 gs.player2 } := by
  obtain ⟨hd, hrs, hrz, hus, hb, hc, hl, hvx, hvy, hy, hx0, hx1⟩ := hq
  have hmv : movePhase 0 false false false false false (mkView true gs) =
      { mkView true gs with p := quietMoveP gs.player1 gs.player2 } :=
    movePhase_quiet (mkView true gs)
      ⟨hd, hrs, hrz, hus, hb, hc, hl, hvx, hvy, hy, hx0, hx1⟩
  have hsl : setLastAtk { mkView true gs with p := quietMoveP gs.player1 gs.player2 } false
      = { mkView true gs with p := quietMoveP gs.player1 gs.player2 } :=
    setLastAtk_self _ hl
  have hsp : specialPhase true now
        { mkView true gs with p := quietMoveP gs.player1 gs.player2 }
      = { mkView true gs with p := quietMoveP gs.player1 gs.player2 } :=
    specialPhase_skip _ _ _ hus
  simp only [handlePlayer, noInputs, hd, hrs, hmv, hsl, hsp, Bool.false_and,
    Bool.or_self, Bool.false_eq_true, if_false, eq_self_iff_true, if_true]
  rfl

lemma handlePlayer_quiet_p2 (now : ℚ) (k1 k2 k3 k4 k5 k6 k7 k8 : Key)
    (gs : GameState) (hq : QuietPlayer gs.player2) :
    handlePlayer 0 now noInputs k1 k2 k3 k4 k5 k6 k7 k8 false gs =
      { gs with player2 := quietMoveP gs.player2 gs.player1 } := by
  obtain ⟨hd, hrs, hrz, hus, hb, hc, hl, hvx, hvy, hy, hx0, hx1⟩ := hq
  have hmv : movePhase 0 false false false false false (mkView false gs) =
      { mkView false gs with p := quietMoveP gs.player2 gs.player1 } :=
    movePhase_quiet (mkView false gs)
      ⟨hd, hrs, hrz, hus, hb, hc, hl, hvx, hvy, hy, hx0, hx1⟩
  have hsl : setLastAtk { mkView false gs with p := quietMoveP gs.player2 gs.player1 } false
      = { mkView false gs with p := quietMoveP gs.player2 gs.player1 } :=
    setLastAtk_self _ hl
  have hsp : specialPhase false now
        { mkView false gs with p := quietMoveP gs.player2 gs.player1 }
      = { mkView false gs with p := quietMoveP gs.player2 gs.player1 } :=
    specialPhase_skip _ _ _ hus
  simp only [handlePlayer, noInputs, hd, hrs, hmv, hsl, hsp, Bool.false_and,
    Bool.or_self, Bool.false_eq_true, if_false, eq_self_iff_true, if_true]
  rfl

lemma clampPlayer_id (p : Player) (h0 : 0 ≤ p.x)
    (h1 : p.x ≤ ARENA_WIDTH - p.width) (hy : p.y = groundYFor p.lane) :
    clampPlayer p = p := by
  simp only [clampPlayer]
  rw [if_neg (not_lt.mpr h0), if_neg (not_lt.mpr h1), if_neg (not_lt.mpr (le_of_eq hy))]

lemma clampPlayers_id (x : GameState)
    (h10 : 0 ≤ x.player1.x) (h11 : x.player1.x ≤ ARENA_WIDTH - x.player1.width)
    (h1y : x.player1.y = groundYFor x.player1.lane)
    (h20 : 0 ≤ x.player2.x) (h21 : x.player2.x ≤ ARENA_WIDTH - x.player2.width)
    (h2y : x.player2.y = groundYFor x.player2.lane) :
    clampPlayers x = x := by
  simp only [clampPlayers]
  rw [clampPlayer_id _ h10 h11 h1y, clampPlayer_id _ h20 h21 h2y]

lemma respawnTickP1_id (dt : ℚ) (gs : GameState)
    (h : gs.player1.isRespawning = false) : respawnTickP1 dt gs = gs := by
  simp [respawnTickP1, h]

lemma resurrectTickP1_id (gs : GameState)
    (h : gs.player1.isResurrecting = false) : resurrectTickP1 gs = gs := by
  simp [resurrectTickP1, h]

lemma respawnTickP2_id (dt : ℚ) (gs : GameState)
    (h : gs.player2.isRespawning = false) : respawnTickP2 dt gs = gs := by
  simp [respawnTickP2, h]

lemma resurrectTickP2_id (gs : GameState)
    (h : gs.player2.isResurrecting = false) : resurrectTickP2 gs = gs := by
  simp [resurrectTickP2, h]

lemma setShielded_self (o : Orb) (h : o.isShielded = true) :
    { o with isShielded := true } = o := by
  conv_lhs => rw [← h]

lemma orbShieldStep_id (x : GameState)
    (ht1 : x.titan1.isDead = false) (ht2 : x.titan2.isDead = false)
    (hs1 : x.orb1.isShielded = true) (hs2 : x.orb2.isShielded = true) :
    orbShieldStep x = x := by
  simp only [orbShieldStep, ht1, ht2, Bool.not_false]
  rw [setShielded_self _ hs1, setShielded_self _ hs2]

lemma titanRegenStep_id (dt now : ℚ) (x : GameState)
    (ht1 : x.titan1.isDead = false) (ht2 : x.titan2.isDead = false) :
    titanRegenStep dt now x = x := by
  simp [titanRegenStep, ht1, ht2]

lemma secondWindStep_id (x : GameState)
    (ht1 : x.titan1.isDead = false) (ht2 : x.titan2.isDead = false) :
    secondWindStep x = x := by
  simp [secondWindStep, ht1, ht2]

lemma orbArmorRegenStep_zero (x : GameState)
    (ha1 : x.orb1.armor ≤ x.orb1.maxArmor)
    (ha2 : x.orb2.armor ≤ x.orb2.maxArmor) :
    orbArmorRegenStep 0 x = x := by
  simp only [orbArmorRegenStep]
  rw [regenerateArmor_zero _ _ ha1, regenerateArmor_zero _ _ ha2]

lemma beamTimerStep_id (dt : ℚ) (x : GameState) (h : x.titanCharging = 0) :
    beamTimerStep dt x = x := by
  simp [beamTimerStep, h]

lemma winStep_id (x : GameState) (h1 : x.orb1.isDead = false)
    (h2 : x.orb2.isDead = false) : winStep x = x := by
  simp [winStep, h1, h2]

lemma updateTitanCharge_isDead (dt : ℚ) (t : Titan) (pl : Player) :
    (updateTitanCharge dt t pl).isDead = t.isDead := by
  simp only [updateTitanCharge]
  split_ifs <;> rfl

lemma titanChargeStep_persist (dt : ℚ) (x : GameState) :
    statePersist (titanChargeStep dt x) = statePersist x := by
  simp only [titanChargeStep, updateTitanCharge]
  split_ifs <;> rfl

lemma titanBehaviorStep_charging (dt now roll : ℚ) (y : GameState)
    (ht1 : y.titan1.isDead = false) (ht2 : y.titan2.isDead = false) :
    (titanBehaviorStep dt now roll y).titanCharging = y.titanCharging := by
  simp [titanBehaviorStep, ht1, ht2]
  split_ifs <;> rfl

lemma titanBehaviorStep_orb1 (dt now roll : ℚ) (y : GameState)
    (ht1 : y.titan1.isDead = false) (ht2 : y.titan2.isDead = false) :
    (titanBehaviorStep dt now roll y).orb1 = y.orb1 := by
  simp [titanBehaviorStep, ht1, ht2]
  split_ifs <;> rfl

lemma titanBehaviorStep_orb2 (dt now roll : ℚ) (y : GameState)
    (ht1 : y.titan1.isDead = false) (ht2 : y.titan2.isDead = false) :
    (titanBehaviorStep dt now roll y).orb2 = y.orb2 := by
  simp [titanBehaviorStep, ht1, ht2]
  split_ifs <;> rfl

lemma titanBehaviorStep_persist (dt now roll : ℚ) (y : GameState)
    (ht1 : y.titan1.isDead = false) (ht2 : y.titan2.isDead = false)
    (hroll : (0.008:ℚ) ≤ roll) :
    statePersist (titanBehaviorStep dt now roll y) = statePersist y := by
  simp only [titanBehaviorStep]
  rw [if_pos (show ¬y.titan1.isDead = true ∧ ¬y.titan2.isDead = true from
        ⟨by simp [ht1], by simp [ht2]⟩)]
  split_ifs <;> first | linarith | rfl

lemma tailSteps_persist (now roll : ℚ) (x : GameState)
    (ht1 : x.titan1.isDead = false) (ht2 : x.titan2.isDead = false)
    (ho1 : x.orb1.isDead = false) (ho2 : x.orb2.isDead = false)
    (ha1 : x.orb1.armor ≤ x.orb1.maxArmor) (ha2 : x.orb2.armor ≤ x.orb2.maxArmor)
    (hs1 : x.orb1.isShielded = true) (hs2 : x.orb2.isShielded = true)
    (hch : x.titanCharging = 0) (hroll : (0.008:ℚ) ≤ roll)
    (h10 : 0 ≤ x.player1.x) (h11 : x.player1.x ≤ ARENA_WIDTH - x.player1.width)
    (h1y : x.player1.y = groundYFor x.player1.lane)
    (h20 : 0 ≤ x.player2.x) (h21 : x.player2.x ≤ ARENA_WIDTH - x.player2.width)
    (h2y : x.player2.y = groundYFor x.player2.lane) :
    statePersist (winStep (titanMoveStep 0 (beamTimerStep 0 (titanBehaviorStep 0 now roll
      (orbArmorRegenStep 0 (secondWindStep (titanRegenStep 0 now (titanChargeStep 0
        (orbShieldStep (titanSizeStep (clampPlayers x))))))))))) = statePersist x := by
  rw [clampPlayers_id x h10 h11 h1y h20 h21 h2y]
  rw [orbShieldStep_id (titanSizeStep x) ht1 ht2 hs1 hs2]
  have hc1 : (titanChargeStep 0 (titanSizeStep x)).titan1.isDead = false :=
    (updateTitanCharge_isDead 0 (titanSizeStep x).titan1 (titanSizeStep x).player1).trans ht1
  have hc2 : (titanChargeStep 0 (titanSizeStep x)).titan2.isDead = false :=
    (updateTitanCharge_isDead 0 (titanSizeStep x).titan2 (titanSizeStep x).player2).trans ht2
  rw [titanRegenStep_id 0 now (titanChargeStep 0 (titanSizeStep x)) hc1 hc2]
  rw [secondWindStep_id (titanChargeStep 0 (titanSizeStep x)) hc1 hc2]
  rw [orbArmorRegenStep_zero (titanChargeStep 0 (titanSizeStep x)) ha1 ha2]
  have hbC : (titanBehaviorStep 0 now roll
      (titanChargeStep 0 (titanSizeStep x))).titanCharging = 0 :=
    (titanBehaviorStep_charging 0 now roll _ hc1 hc2).trans hch
  rw [beamTimerStep_id 0 _ hbC]
  rw [titanMoveStep_zero]
  have hbO1 : (titanBehaviorStep 0 now roll
      (titanChargeStep 0 (titanSizeStep x))).orb1.isDead = false := by
    rw [titanBehaviorStep_orb1 0 now roll _ hc1 hc2]
    exact ho1
  have hbO2 : (titanBehaviorStep 0 now roll
      (titanChargeStep 0 (titanSizeStep x))).orb2.isDead = false := by
    rw [titanBehaviorStep_orb2 0 now roll _ hc1 hc2]
    exact ho2
  rw [winStep_id _ hbO1 hbO2]
  rw [titanBehaviorStep_persist 0 now roll _ hc1 hc2 hroll]
  rw [titanChargeStep_persist]
  rfl


/-! ## Theorems -/

/-- C7: for every fighter and every incoming damage amount `d`,
`takeDamage` while `isBlocking` is true reduces health by exactly
`0.1 * d`, clamped at zero — blocking reduces incoming fighter damage to
exactly 10% of nominal. -/
theorem C7_blocking_reduces_damage_to_ten_percent (p : Player) (d : ℚ)
    (hb : p.isBlocking = true) :
    (p.takeDamage d).health = max 0 (p.health - 0.1 * d) := by
  have key : takeDamageHealth p.isBlocking p.health d = max 0 (p.health - 0.1 * d) := by
    unfold takeDamageHealth
    rw [hb]
    simp [mul_comm]
  simp only [Player.takeDamage]
  split_ifs <;> simpa using key

/-- Witness for C7 at a concrete blocking SAMURAI (health 800) taking a
50-damage hit. -/
theorem C7_blocking_reduces_damage_to_ten_percent_witness :
    (Player.takeDamage { mkPlayer 1 40 110 EntityType.SAMURAI with isBlocking := true } 50).health
      = max 0 ((mkPlayer 1 40 110 EntityType.SAMURAI).health - 0.1 * 50) :=
  C7_blocking_reduces_damage_to_ten_percent
    { mkPlayer 1 40 110 EntityType.SAMURAI with isBlocking := true } 50 rfl

/-- C4: for every world state with winner undecided and hit-stop
counter positive, `update` decrements the hit-stop counter by exactly
one (regardless of `dt`) and leaves every other field of the world
state unchanged. -/
theorem C4_hitstop_freeze (dt : ℚ) (inp : Inputs) (e : Env) (gs : GameState)
    (hw : gs.winner = none) (hh : 0 < gs.hitStop) :
    update dt inp e gs = { gs with hitStop := gs.hitStop - 1 } := by
  unfold update updateCore
  rw [hw]
  simp [hh]

/-- Witness for C4 at the initial state with three pending hit-stop
frames. -/
theorem C4_hitstop_freeze_witness :
    update (1/60) noInputs envA sHitstop = { sHitstop with hitStop := sHitstop.hitStop - 1 } :=
  C4_hitstop_freeze (1/60) noInputs envA sHitstop rfl (by decide)

/-- C6: a swing whose handle zone intersects a non-titan target while
the blade zone misses deals zero damage and does not add the target to
the per-swing hit set (the whole resolution is a no-op); against a
titan, an intersection with either the handle zone or the blade zone
counts as an effective hit. -/
theorem C6_handle_dead_zone_and_titan_exception (isP1 : Bool) (now : ℚ) (v : PView)
    (p : Player) (tb : Rect)
    (hHandle : (getIntersection (handleBoxOf v.p)
        { x := v.enemy.x, y := v.enemy.y, w := v.enemy.width, h := v.enemy.height }).isSome
        = true)
    (hBlade : getIntersection (bladeBoxOf v.p)
        { x := v.enemy.x, y := v.enemy.y, w := v.enemy.width, h := v.enemy.height } = none)
    (hClass : v.enemy.classType ≠ EntityType.TITAN) :
    resolvePlayerTarget isP1 now v = v ∧
    ((getIntersection (handleBoxOf p) tb).isSome = true ∨
        (getIntersection (bladeBoxOf p) tb).isSome = true →
      effectiveHit p tb EntityType.TITAN = true) := by
  constructor
  · obtain ⟨c, hc⟩ := Option.isSome_iff_exists.mp hHandle
    cases hvp : v.p.hitTargets.enemyPlayer <;>
      simp [resolvePlayerTarget, swingGeom, hvp, hc, hClass]
  · intro h
    unfold effectiveHit swingGeom
    rcases h with h | h
    · obtain ⟨c, hc⟩ := Option.isSome_iff_exists.mp h
      simp [hc]
    · cases hh : getIntersection (handleBoxOf p) tb with
      | some c => simp [hh]
      | none =>
        obtain ⟨c, hc⟩ := Option.isSome_iff_exists.mp h
        simp [hh, hc]

/-- Witness for C6: the concrete SAMURAI attacker `pAtkW` whose handle
zone (x 112-130) overlaps the defender box (x 120-128) while the blade
zone (x 130-165) misses it. -/
theorem C6_handle_dead_zone_and_titan_exception_witness :
    resolvePlayerTarget true 0 vNeutral = vNeutral ∧
    effectiveHit pAtkW tbHandleW EntityType.TITAN = true := by
  have h1 : (getIntersection (handleBoxOf vNeutral.p)
      { x := vNeutral.enemy.x, y := vNeutral.enemy.y, w := vNeutral.enemy.width,
        h := vNeutral.enemy.height }).isSome = true := by
    norm_num +decide [getIntersection, handleBoxOf, getHitboxSegment, bladeStartOf,
      laneScale, WEAPON_STATS, vNeutral, pAtkW, pDefW, mkPlayer, HitSet.empty]
  have h2 : getIntersection (bladeBoxOf vNeutral.p)
      { x := vNeutral.enemy.x, y := vNeutral.enemy.y, w := vNeutral.enemy.width,
        h := vNeutral.enemy.height } = none := by
    norm_num +decide [getIntersection, bladeBoxOf, getHitboxSegment, bladeStartOf,
      bladeLengthOf, laneScale, WEAPON_STATS, vNeutral, pAtkW, pDefW, mkPlayer, HitSet.empty]
  have h3 : vNeutral.enemy.classType ≠ EntityType.TITAN := by
    norm_num +decide [vNeutral, pDefW, mkPlayer]
  have h4 : (getIntersection (handleBoxOf pAtkW) tbHandleW).isSome = true := by
    norm_num +decide [getIntersection, handleBoxOf, getHitboxSegment, bladeStartOf,
      laneScale, WEAPON_STATS, pAtkW, mkPlayer, tbHandleW]
  exact ⟨(C6_handle_dead_zone_and_titan_exception true 0 vNeutral pAtkW tbHandleW h1 h2 h3).1,
         (C6_handle_dead_zone_and_titan_exception true 0 vNeutral pAtkW tbHandleW h1 h2 h3).2
           (Or.inl h4)⟩

/-- Counterexample for C8: a crouching player (down held while grounded,
crouch flag set) that still carries velocity -60 from the previous tick
moves left by one pixel when the left action is also held: crouching
does not suppress horizontal movement. -/
theorem C8_crouch_slide_counterexample :
    (movePhase (1/60) true false true false false vCrouchSlide).p.x ≠ vCrouchSlide.p.x := by
  norm_num +decide [movePhase, vCrouchSlide, vNeutral, pAtkW, pDefW, mkPlayer,
    groundYFor, laneY_FG, laneY_BG, PLAYER_SPEED, GRAVITY, JUMP_FORCE, scale_BG,
    HitSet.empty]

/-- C8 (amended): crouching suppresses the *acquisition* of horizontal
velocity, not horizontal movement: on a tick where the crouch flag from
the previous tick is set, a held direction leaves `vx` unchanged (the
position still advances by the residual `vx * dt`), and with no
direction held `vx` is zeroed and the horizontal position does not
change. -/
theorem C8_crouch_velocity_suppression (dt : ℚ) (l r dn j sw : Bool) (v : PView)
    (hc : v.p.isCrouching = true) :
    ((l || r) = true →
      (movePhase dt l r dn j sw v).p.vx = v.p.vx ∧
      (movePhase dt l r dn j sw v).p.x = v.p.x + v.p.vx * dt) ∧
    (l = false → r = false →
      (movePhase dt l r dn j sw v).p.vx = 0 ∧
      (movePhase dt l r dn j sw v).p.x = v.p.x) := by
  constructor
  · intro hlr
    cases hl : l <;> cases hr : r <;>
      simp_all [movePhase]
  · intro hl hr
    simp [movePhase, hl, hr]

/-- Witness for C8 (amended) at the concrete crouching player with
residual velocity -60: with left held the velocity is kept and the
position slides; with nothing held the velocity is zeroed and the
position is kept. -/
theorem C8_crouch_velocity_suppression_witness :
    ((movePhase (1/60) true false true false false vCrouchSlide).p.vx = vCrouchSlide.p.vx ∧
     (movePhase (1/60) true false true false false vCrouchSlide).p.x
        = vCrouchSlide.p.x + vCrouchSlide.p.vx * (1/60)) ∧
    ((movePhase (1/60) false false true false false vCrouchSlide).p.vx = 0 ∧
     (movePhase (1/60) false false true false false vCrouchSlide).p.x = vCrouchSlide.p.x) := by
  have hc : vCrouchSlide.p.isCrouching = true := rfl
  exact ⟨(C8_crouch_velocity_suppression (1/60) true false true false false vCrouchSlide hc).1
           rfl,
         (C8_crouch_velocity_suppression (1/60) false false true false false vCrouchSlide hc).2
           rfl rfl⟩

/-- Counterexample for C1: from the identical state `sClash` (titans
within clash range), with identical `dt` and identical (empty) inputs,
two runs of `update` that differ only in the `Math.random()` clash roll
produce different world states (the clash damages both titans in one
run, 2500 to 2472, and not the other): the step is not deterministic in
state, `dt` and inputs alone. -/
theorem C1_determinism_counterexample :
    update (1/60) noInputs envB sClash ≠ update (1/60) noInputs envA sClash := by
  have hA : (update (1/60) noInputs envA sClash).titan1.health = 2500 := by
    norm_num +decide [update, updateCore, envA, sClash, sInit, initGame, mkPlayer,
      mkTitan, mkOrb, noInputs, respawnPhase, respawnTickP1, resurrectTickP1,
      respawnTickP2, resurrectTickP2, handlePlayer, mkView, writeBack,
      movePhase, setLastAtk, specialPhase, clampPlayers, clampPlayer, titanSizeStep,
      orbShieldStep, titanChargeStep, updateTitanCharge, titanRegenStep,
      getDynamicRegen, secondWindStep, orbArmorRegenStep, Orb.regenerateArmor,
      titanBehaviorStep, getClassSpeedModifier, beamTimerStep, titanMoveStep,
      Titan.updatePos, winStep, groundYFor, laneY_FG, laneY_BG, PLAYER_SPEED,
      GRAVITY, JUMP_FORCE, scale_BG, ARENA_WIDTH, criticalThreshold, baseRegenRate,
      HitSet.empty, Titan.takeDamage, takeDamageHealth]
  have hB : (update (1/60) noInputs envB sClash).titan1.health = 2472 := by
    norm_num +decide [update, updateCore, envB, sClash, sInit, initGame, mkPlayer,
      mkTitan, mkOrb, noInputs, respawnPhase, respawnTickP1, resurrectTickP1,
      respawnTickP2, resurrectTickP2, handlePlayer, mkView, writeBack,
      movePhase, setLastAtk, specialPhase, clampPlayers, clampPlayer, titanSizeStep,
      orbShieldStep, titanChargeStep, updateTitanCharge, titanRegenStep,
      getDynamicRegen, secondWindStep, orbArmorRegenStep, Orb.regenerateArmor,
      titanBehaviorStep, getClassSpeedModifier, beamTimerStep, titanMoveStep,
      Titan.updatePos, winStep, groundYFor, laneY_FG, laneY_BG, PLAYER_SPEED,
      GRAVITY, JUMP_FORCE, scale_BG, ARENA_WIDTH, criticalThreshold, baseRegenRate,
      HitSet.empty, Titan.takeDamage, takeDamageHealth]
  intro h
  rw [h, hA] at hB
  norm_num at hB

/-- C1 (amended): the simulation step is not deterministic in (state,
dt, inputs) alone — the titan clash consumes a random roll, the regen
tiers and combo cooldowns read the wall clock, and the attack-flag
reset is a scheduled callback (`fireAttackTimeouts`).  Once the
wall-clock reading and the clash roll are fixed as additional inputs,
`update` is deterministic: two runs agreeing on state, `dt`, inputs,
clock and roll produce identical world states (in particular the
timeout flags of the environment are never consumed by `update`). -/
theorem C1_determinism_given_clock_and_roll (dt : ℚ) (inp : Inputs) (e1 e2 : Env)
    (gs : GameState) (hn : e1.now = e2.now) (hr : e1.clashRoll = e2.clashRoll) :
    update dt inp e1 gs = update dt inp e2 gs := by
  unfold update
  rw [hn, hr]

/-- Witness for C1 (amended): two environments with equal clock and
roll but different pending-timeout flags give identical steps. -/
theorem C1_determinism_given_clock_and_roll_witness :
    update (1/60) noInputs envA sInit
      = update (1/60) noInputs { envA with p1AtkTimeout := true } sInit :=
  C1_determinism_given_clock_and_roll (1/60) noInputs envA
    { envA with p1AtkTimeout := true } sInit rfl rfl

/-- C2: while a surviving titan sieges the enemy orb, once the orb's
post-DOT health is at or below 35% of its max health the 45-second beam
countdown is armed exactly once — on a tick where it is already armed
(`titanCharging = 2`) the siege leaves the countdown untouched — and
when the countdown expires the orb's health is set to zero, its death
flag set, and the win evaluator credits the sieging titan's own side
(side 2 for the titan sieging orb 1). -/
theorem C2_siege_beam_arms_once_and_expires (dt now roll : ℚ)
    (gsA gsB gsC : GameState)
    (ha1 : gsA.titan1.isDead = true) (ha2 : gsA.titan2.isDead = false)
    (ha3 : gsA.titan2.x ≤ gsA.orb1.x + gsA.orb1.width + 30)
    (ha4 : max 0 (gsA.orb1.health - 25 * dt) ≤ gsA.orb1.maxHealth * 0.35)
    (ha5 : gsA.titanCharging ≠ 2)
    (hb1 : gsB.titan1.isDead = true) (hb2 : gsB.titan2.isDead = false)
    (hb3 : gsB.titan2.x ≤ gsB.orb1.x + gsB.orb1.width + 30)
    (hb5 : gsB.titanCharging = 2)
    (hc1 : gsC.titanCharging = 2) (hc2 : 0 < gsC.titanChargeTimer)
    (hc3 : gsC.titanChargeTimer - dt ≤ 0) :
    ((titanBehaviorStep dt now roll gsA).titanCharging = 2 ∧
     (titanBehaviorStep dt now roll gsA).titanChargeTimer = 45) ∧
    ((titanBehaviorStep dt now roll gsB).titanCharging = 2 ∧
     (titanBehaviorStep dt now roll gsB).titanChargeTimer = gsB.titanChargeTimer) ∧
    ((winStep (beamTimerStep dt gsC)).orb1.health = 0 ∧
     (winStep (beamTimerStep dt gsC)).orb1.isDead = true ∧
     (winStep (beamTimerStep dt gsC)).winner = some 2) := by
  refine ⟨⟨?_, ?_⟩, ⟨?_, ?_⟩, ?_, ?_, ?_⟩
  · simp only [titanBehaviorStep]
    simp [ha1, ha2, not_lt.mpr ha3, ha4, ha5]
  · simp only [titanBehaviorStep]
    simp [ha1, ha2, not_lt.mpr ha3, ha4, ha5]
  · simp only [titanBehaviorStep]
    simp [hb1, hb2, not_lt.mpr hb3, hb5]
  · simp only [titanBehaviorStep]
    simp [hb1, hb2, not_lt.mpr hb3, hb5]
  · simp [beamTimerStep, winStep, hc1, hc2, hc3]
  · simp [beamTimerStep, winStep, hc1, hc2, hc3]
  · simp [beamTimerStep, winStep, hc1, hc2, hc3]

/-- Witness for C2 at the concrete siege states `sSiegeA` (arming),
`sSiegeB` (already armed, not re-armed) and `sBeamC` (expiry). -/
theorem C2_siege_beam_arms_once_and_expires_witness :
    (((titanBehaviorStep (1/60) 0 1 sSiegeA).titanCharging = 2 ∧
      (titanBehaviorStep (1/60) 0 1 sSiegeA).titanChargeTimer = 45) ∧
     ((titanBehaviorStep (1/60) 0 1 sSiegeB).titanCharging = 2 ∧
      (titanBehaviorStep (1/60) 0 1 sSiegeB).titanChargeTimer = sSiegeB.titanChargeTimer) ∧
     ((winStep (beamTimerStep (1/60) sBeamC)).orb1.health = 0 ∧
      (winStep (beamTimerStep (1/60) sBeamC)).orb1.isDead = true ∧
      (winStep (beamTimerStep (1/60) sBeamC)).winner = some 2)) :=
  C2_siege_beam_arms_once_and_expires (1/60) 0 1 sSiegeA sSiegeB sBeamC
    rfl rfl
    (by norm_num [sSiegeA, sInit, initGame, mkTitan, mkOrb, mkPlayer, HitSet.empty])
    (by norm_num [sSiegeA, sInit, initGame, mkTitan, mkOrb, mkPlayer, HitSet.empty])
    (by norm_num [sSiegeA, sInit, initGame, mkTitan, mkOrb, mkPlayer, HitSet.empty])
    rfl rfl
    (by norm_num [sSiegeB, sSiegeA, sInit, initGame, mkTitan, mkOrb, mkPlayer, HitSet.empty])
    rfl rfl
    (by norm_num [sBeamC, sInit, initGame, mkTitan, mkOrb, mkPlayer, HitSet.empty])
    (by norm_num [sBeamC, sInit, initGame, mkTitan, mkOrb, mkPlayer, HitSet.empty])

/-- C9: the instant a titan's death flag is first processed
(`titan1DeadHandled` still false), a surviving titan strictly below the
35% critical threshold is healed by exactly 35% of its max health,
capped at max, and the death is marked handled; once marked handled the
step changes no titan health (the heal fires at most once per death);
and on later ticks the survivor marches toward the enemy orb (velocity
-3, position strictly decreasing toward orb 1 for positive dt). -/
theorem C9_second_wind_heal_and_marching (dt now roll : ℚ)
    (gsA gsB gsC : GameState)
    (ha1 : gsA.titan1.isDead = true) (ha2 : gsA.titan1DeadHandled = false)
    (ha3 : gsA.titan2.isDead = false)
    (ha4 : gsA.titan2.health < gsA.titan2.maxHealth * criticalThreshold)
    (hb1 : gsB.titan1DeadHandled = true) (hb2 : gsB.titan2.isDead = false)
    (hc1 : gsC.titan1.isDead = true) (hc2 : gsC.titan2.isDead = false)
    (hc3 : gsC.titan2.x > gsC.orb1.x + gsC.orb1.width + 30) :
    ((secondWindStep gsA).titan2.health
        = min gsA.titan2.maxHealth
            (gsA.titan2.health + gsA.titan2.maxHealth * criticalThreshold) ∧
     (secondWindStep gsA).titan1DeadHandled = true) ∧
    ((secondWindStep gsB).titan1.health = gsB.titan1.health ∧
     (secondWindStep gsB).titan2.health = gsB.titan2.health) ∧
    ((titanBehaviorStep dt now roll gsC).titan2.vx = -3 ∧
     (titanMoveStep dt (titanBehaviorStep dt now roll gsC)).titan2.x
        = gsC.titan2.x + -3 * dt ∧
     (0 < dt → (titanMoveStep dt (titanBehaviorStep dt now roll gsC)).titan2.x
        < gsC.titan2.x)) := by
  refine ⟨⟨?_, ?_⟩, ⟨?_, ?_⟩, ?_, ?_, ?_⟩
  · simp [secondWindStep, ha1, ha2, ha3, ha4]
  · simp [secondWindStep, ha1, ha2, ha3, ha4]
  · simp [secondWindStep, hb1, hb2]
  · simp [secondWindStep, hb1, hb2]
  · simp [titanBehaviorStep, hc1, hc2, hc3]
  · simp [titanBehaviorStep, titanMoveStep, Titan.updatePos, hc1, hc2, hc3]
  · intro hdt
    have hx : (titanMoveStep dt (titanBehaviorStep dt now roll gsC)).titan2.x
        = gsC.titan2.x + -3 * dt := by
      simp [titanBehaviorStep, titanMoveStep, Titan.updatePos, hc1, hc2, hc3]
    rw [hx]
    linarith

/-- Witness for C9 at the concrete states `sWindA` (fresh death,
survivor at 600/2500, below the 875 critical threshold), `sWindB`
(death already handled) and `sMarchC` (survivor still far from orb 1). -/
theorem C9_second_wind_heal_and_marching_witness :
    (((secondWindStep sWindA).titan2.health
        = min sWindA.titan2.maxHealth
            (sWindA.titan2.health + sWindA.titan2.maxHealth * criticalThreshold) ∧
      (secondWindStep sWindA).titan1DeadHandled = true) ∧
     ((secondWindStep sWindB).titan1.health = sWindB.titan1.health ∧
      (secondWindStep sWindB).titan2.health = sWindB.titan2.health) ∧
     ((titanBehaviorStep (1/60) 0 1 sMarchC).titan2.vx = -3 ∧
      (titanMoveStep (1/60) (titanBehaviorStep (1/60) 0 1 sMarchC)).titan2.x
         = sMarchC.titan2.x + -3 * (1/60) ∧
      (0 < (1/60 : ℚ) →
        (titanMoveStep (1/60) (titanBehaviorStep (1/60) 0 1 sMarchC)).titan2.x
           < sMarchC.titan2.x))) :=
  C9_second_wind_heal_and_marching (1/60) 0 1 sWindA sWindB sMarchC
    rfl rfl rfl
    (by norm_num [sWindA, sInit, initGame, mkTitan, mkOrb, mkPlayer, HitSet.empty,
      criticalThreshold])
    rfl rfl rfl rfl
    (by norm_num [sMarchC, sInit, initGame, mkTitan, mkOrb, mkPlayer, HitSet.empty])

/-- C10: titan siege damage bypasses the orb damage-intake pipeline:
the siege DOT sets the orb's health to exactly
`max 0 (health - 25 * dt)` — independent of the defense bonus and with
no armor-first absorption — and leaves the orb's armor and defense-bonus
flag unchanged; the beam expiry likewise zeroes health directly and
leaves armor unchanged (shown for both siege directions). -/
theorem C10_siege_damage_bypasses_pipeline (dt now roll : ℚ)
    (gsA gsB gsC gsD : GameState)
    (ha1 : gsA.titan1.isDead = true) (ha2 : gsA.titan2.isDead = false)
    (ha3 : gsA.titan2.x ≤ gsA.orb1.x + gsA.orb1.width + 30)
    (hb1 : gsB.titan2.isDead = true) (hb2 : gsB.titan1.isDead = false)
    (hb3 : gsB.orb2.x - gsB.titan1.width - 30 ≤ gsB.titan1.x)
    (hc1 : gsC.titanCharging = 2) (hc2 : 0 < gsC.titanChargeTimer)
    (hc3 : gsC.titanChargeTimer - dt ≤ 0)
    (hd1 : gsD.titanCharging = 1) (hd2 : 0 < gsD.titanChargeTimer)
    (hd3 : gsD.titanChargeTimer - dt ≤ 0) :
    ((titanBehaviorStep dt now roll gsA).orb1.health
        = max 0 (gsA.orb1.health - 25 * dt) ∧
     (titanBehaviorStep dt now roll gsA).orb1.armor = gsA.orb1.armor ∧
     (titanBehaviorStep dt now roll gsA).orb1.hasDefenseBonus
        = gsA.orb1.hasDefenseBonus) ∧
    ((titanBehaviorStep dt now roll gsB).orb2.health
        = max 0 (gsB.orb2.health - 25 * dt) ∧
     (titanBehaviorStep dt now roll gsB).orb2.armor = gsB.orb2.armor ∧
     (titanBehaviorStep dt now roll gsB).orb2.hasDefenseBonus
        = gsB.orb2.hasDefenseBonus) ∧
    ((beamTimerStep dt gsC).orb1.health = 0 ∧
     (beamTimerStep dt gsC).orb1.armor = gsC.orb1.armor) ∧
    ((beamTimerStep dt gsD).orb2.health = 0 ∧
     (beamTimerStep dt gsD).orb2.armor = gsD.orb2.armor) := by
  have hbm : ¬(gsB.titan1.x < gsB.orb2.x - gsB.titan1.width - 30) := not_lt.mpr hb3
  refine ⟨⟨?_, ?_, ?_⟩, ⟨?_, ?_, ?_⟩, ⟨?_, ?_⟩, ?_, ?_⟩
  · simp only [titanBehaviorStep]
    simp [ha1, ha2, not_lt.mpr ha3]
    try split_ifs <;> simp_all
  · simp only [titanBehaviorStep]
    simp [ha1, ha2, not_lt.mpr ha3]
    try split_ifs <;> simp_all
  · simp only [titanBehaviorStep]
    simp [ha1, ha2, not_lt.mpr ha3]
    try split_ifs <;> simp_all
  · simp only [titanBehaviorStep]
    simp [hb1, hb2, hbm]
    try split_ifs <;> simp_all
  · simp only [titanBehaviorStep]
    simp [hb1, hb2, hbm]
    try split_ifs <;> simp_all
  · simp only [titanBehaviorStep]
    simp [hb1, hb2, hbm]
    try split_ifs <;> simp_all
  · simp [beamTimerStep, hc1, hc2, hc3]
  · simp [beamTimerStep, hc1, hc2, hc3]
  · simp [beamTimerStep, hd1, hd2, hd3]
  · simp [beamTimerStep, hd1, hd2, hd3]

/-- Witness for C10 at the concrete states `sSiegeA` (titan 2 sieging
orb 1), `sSiegeMirror` (titan 1 sieging orb 2), and the two
about-to-expire beams `sBeamC`, `sBeamD`. -/
theorem C10_siege_damage_bypasses_pipeline_witness :
    (((titanBehaviorStep (1/60) 0 1 sSiegeA).orb1.health
        = max 0 (sSiegeA.orb1.health - 25 * (1/60)) ∧
      (titanBehaviorStep (1/60) 0 1 sSiegeA).orb1.armor = sSiegeA.orb1.armor ∧
      (titanBehaviorStep (1/60) 0 1 sSiegeA).orb1.hasDefenseBonus
        = sSiegeA.orb1.hasDefenseBonus) ∧
     ((titanBehaviorStep (1/60) 0 1 sSiegeMirror).orb2.health
        = max 0 (sSiegeMirror.orb2.health - 25 * (1/60)) ∧
      (titanBehaviorStep (1/60) 0 1 sSiegeMirror).orb2.armor = sSiegeMirror.orb2.armor ∧
      (titanBehaviorStep (1/60) 0 1 sSiegeMirror).orb2.hasDefenseBonus
        = sSiegeMirror.orb2.hasDefenseBonus) ∧
     ((beamTimerStep (1/60) sBeamC).orb1.health = 0 ∧
      (beamTimerStep (1/60) sBeamC).orb1.armor = sBeamC.orb1.armor) ∧
     ((beamTimerStep (1/60) sBeamD).orb2.health = 0 ∧
      (beamTimerStep (1/60) sBeamD).orb2.armor = sBeamD.orb2.armor)) :=
  C10_siege_damage_bypasses_pipeline (1/60) 0 1 sSiegeA sSiegeMirror sBeamC sBeamD
    rfl rfl
    (by norm_num [sSiegeA, sInit, initGame, mkTitan, mkOrb, mkPlayer, HitSet.empty])
    rfl rfl
    (by norm_num [sSiegeMirror, sInit, initGame, mkTitan, mkOrb, mkPlayer, HitSet.empty])
    rfl
    (by norm_num [sBeamC, sInit, initGame, mkTitan, mkOrb, mkPlayer, HitSet.empty])
    (by norm_num [sBeamC, sInit, initGame, mkTitan, mkOrb, mkPlayer, HitSet.empty])
    rfl
    (by norm_num [sBeamD, sInit, initGame, mkTitan, mkOrb, mkPlayer, HitSet.empty])
    (by norm_num [sBeamD, sInit, initGame, mkTitan, mkOrb, mkPlayer, HitSet.empty])

/-- C3: from any well-formed world state (health and armor within their
bounds and the titan proximity charges in the range the engine
maintains), one simulation tick of nonnegative duration keeps every
entity's health within `[0, maxHealth]` and every orb's armor within
`[0, maxArmor]`: no damage, regeneration, second-wind heal, or siege
effect drives a bound past its limit. -/
theorem C3_health_armor_bounds (dt : ℚ) (inp : Inputs) (e : Env) (gs : GameState)
    (hdt : 0 ≤ dt) (hwf : WellFormed gs) :
    HealthArmorBounds (update dt inp e gs) :=
  wellFormed_bounds _ (update_wf dt inp e gs hdt hwf)

/-- Witness for C3 at the initial state and a 60 Hz tick. -/
theorem C3_health_armor_bounds_witness :
    (0:ℚ) ≤ 1/60 ∧ WellFormed sInit ∧
      HealthArmorBounds (update (1/60) noInputs envA sInit) := by
  have h0 : (0:ℚ) ≤ 1/60 := by norm_num
  have h1 : WellFormed sInit := by
    norm_num [WellFormed, PlayerOk, TitanOk, OrbOk, sInit, initGame, mkPlayer,
      mkTitan, mkOrb]
  exact ⟨h0, h1, C3_health_armor_bounds (1/60) noInputs envA sInit h0 h1⟩

/-- Counterexample for C5: a step with `dt = 0` and an empty held-input
set from the initial world state changes titan 1's horizontal velocity —
a field that is neither a timer, a debounce, a cooldown nor an animation
counter, so the change is outside every exception the claim grants: the
titan controller recomputes the advance velocity from 0 to 10
(GameEngine.ts lines 734-752). -/
theorem C5_idempotence_counterexample :
    (update 0 noInputs envA sInit).titan1.vx ≠ sInit.titan1.vx := by
  have h1 : (update 0 noInputs envA sInit).titan1.vx = 10 := by
    norm_num +decide [update, updateCore, envA, sInit, initGame, mkPlayer,
      mkTitan, mkOrb, noInputs, respawnPhase, respawnTickP1, resurrectTickP1,
      respawnTickP2, resurrectTickP2, handlePlayer, mkView, writeBack,
      movePhase, setLastAtk, specialPhase, clampPlayers, clampPlayer, titanSizeStep,
      orbShieldStep, titanChargeStep, updateTitanCharge, titanRegenStep,
      getDynamicRegen, secondWindStep, orbArmorRegenStep, Orb.regenerateArmor,
      titanBehaviorStep, getClassSpeedModifier, beamTimerStep, titanMoveStep,
      Titan.updatePos, winStep, groundYFor, laneY_FG, laneY_BG, PLAYER_SPEED,
      GRAVITY, JUMP_FORCE, scale_BG, ARENA_WIDTH, criticalThreshold, baseRegenRate,
      HitSet.empty, Titan.takeDamage, takeDamageHealth]
  have h2 : sInit.titan1.vx = 0 := by
    norm_num +decide [sInit, initGame, mkTitan]
  rw [h1, h2]
  norm_num

/-- C5 (amended): a step with `dt = 0` and an empty held-input set
leaves the persistent world state unchanged, provided the state is
quiescent (no winner, no hit-stop, unarmed beam, both titans alive,
both players idle on the ground line of their lane and inside the
arena, both orbs alive with armor in bounds and shields up) and the
clash roll is at or above the 0.008 threshold.  Unchanged "up to
tick-counted timers" is made precise by `statePersist`, which erases
exactly the per-tick bookkeeping: the players' lane-sync flag,
defense-activation cooldown and lane-switch debounce, the titans'
recomputed AI velocity, reasserted sprite size and proximity charge,
the orbs' last-hit timestamp, and the siege arming pair. -/
theorem C5_quiescent_persistence (e : Env) (gs : GameState) (hq : Quiescent gs)
    (hroll : (0.008:ℚ) ≤ e.clashRoll) :
    statePersist (update 0 noInputs e gs) = statePersist gs := by
  obtain ⟨hw, hh, hch, ht1, ht2, hp1, hp2, ho1, ho2⟩ := hq
  obtain ⟨hd1, hrs1, hrz1, hus1, hb1, hc1, hl1, hvx1, hvy1, hy1, hx01, hx11⟩ := hp1
  obtain ⟨hd2, hrs2, hrz2, hus2, hb2, hc2, hl2, hvx2, hvy2, hy2, hx02, hx12⟩ := hp2
  obtain ⟨ho1d, ho1a, ho1s⟩ := ho1
  obtain ⟨ho2d, ho2a, ho2s⟩ := ho2
  simp only [update, updateCore]
  rw [if_neg (by simp [hw]), if_neg (by simp [hh])]
  simp only [respawnPhase]
  rw [respawnTickP1_id 0 gs hrs1, resurrectTickP1_id gs hrz1,
      respawnTickP2_id 0 gs hrs2, resurrectTickP2_id gs hrz2]
  rw [handlePlayer_quiet_p1 e.now Key.KeyA Key.KeyD Key.KeyW Key.KeyS Key.Space
      Key.KeyQ Key.KeyW Key.KeyE gs
      ⟨hd1, hrs1, hrz1, hus1, hb1, hc1, hl1, hvx1, hvy1, hy1, hx01, hx11⟩]
  rw [handlePlayer_quiet_p2 e.now Key.ArrowLeft Key.ArrowRight Key.ArrowUp
      Key.ArrowDown Key.Enter Key.ShiftRight Key.ArrowUp Key.ShiftRight
      { gs with player1 := quietMoveP gs.player1 gs.player2 }
      ⟨hd2, hrs2, hrz2, hus2, hb2, hc2, hl2, hvx2, hvy2, hy2, hx02, hx12⟩]
  refine (tailSteps_persist e.now e.clashRoll _ ?_ ?_ ?_ ?_ ?_ ?_ ?_ ?_ ?_ ?_ ?_
      ?_ ?_ ?_ ?_ ?_).trans rfl
  · exact ht1
  · exact ht2
  · exact ho1d
  · exact ho2d
  · exact ho1a
  · exact ho2a
  · exact ho1s
  · exact ho2s
  · exact hch
  · exact hroll
  · exact hx01
  · exact hx11
  · exact hy1
  · exact hx02
  · exact hx12
  · exact hy2

/-- Witness for C5 (amended) at the initial state: it is quiescent, the
reference environment's roll is above the clash threshold, and the
dt = 0 step preserves the persistent state. -/
theorem C5_quiescent_persistence_witness :
    Quiescent sInit ∧ (0.008:ℚ) ≤ envA.clashRoll ∧
      statePersist (update 0 noInputs envA sInit) = statePersist sInit := by
  have hq : Quiescent sInit := by
    refine ⟨rfl, rfl, rfl, rfl, rfl, ?_, ?_, ?_, ?_⟩ <;>
      norm_num +decide [QuietPlayer, QuietOrb, sInit, initGame, mkPlayer, mkTitan,
        mkOrb, groundYFor, laneY_FG, ARENA_WIDTH]
  have hr : (0.008:ℚ) ≤ envA.clashRoll := by norm_num [envA]
  exact ⟨hq, hr, C5_quiescent_persistence envA sInit hq hr⟩

end Valorium
